import Mathlib

/-!
Outbound-vote finalization of the zetacore keeper, the hardware signer of
the client, and outbound-transaction signing.

A shallow embedding of `x/zetacore/keeper/keeper_cross_chain_tx_vote_outbound_tx.go`
(`VoteOnObservedOutboundTx`, `HandleFeeBalances`, `FinalizeReceive`) as pure
state-passing functions over an explicit store, of `zetaclient/hsm/hsm_signer.go`
(`GetPKCS11Config`, `Sign`, `GetHSMAddress`, `SignWithHSM`) in the namespace
`Hsm`, and of the signing operation exercised by `metaclient/signer_test.go` in
the namespace `Metaclient`, followed by theorems about them.

Conventions.
* A Go pointer argument that the callee mutates is returned in the result record.
* Every call with a side effect (bank mint, price and nonce update, tracker
  removal, events, store writes) is appended to `Store.calls` in program order.
* `sdk.Uint` amounts and `uint64` heights are natural numbers; the only
  arithmetic on them is `Uint.Sub` and the `int64 → uint64` conversion. The
  `ZetaMinted` of a vote message is optional: a message without the field
  carries the nil `sdk.Uint`, on which `Equal` panics.
* Collaborators whose code is outside the translated file are fields of `Keeper`.
-/

namespace Zetacore

/-! ## Data model -/

/-- Outcome reported by an observer for an outbound transaction
(`common.ReceiveStatus`). The protobuf enum is an `int32`; the handler tests
`!= Failed` (line 34) and `== Success || == Failed` (line 77), so a value that
is neither `Success` nor `Failed` is representable: it is the enum's zero
value `Created`. -/
inductive ReceiveStatus where
  | Created
  | Success
  | Failed
  deriving DecidableEq, Repr

/-- Lifecycle status of a cross-chain transaction (`types.CctxStatus`), the
five statuses named by the handler. -/
inductive CctxStatus where
  | PendingOutbound
  | OutboundMined
  | PendingRevert
  | Reverted
  | Aborted
  deriving DecidableEq, Repr

set_option linter.dupNamespace false in
/-- Go `types.Status`: the status of a CCTX with its message and timestamp. -/
structure Status where
  Status : CctxStatus
  StatusMessage : String
  LastUpdateTimestamp : Int
  deriving DecidableEq, Repr

/-- Go `types.InBoundTxParams`, the field read by the handler. -/
structure InBoundTxParams where
  SenderChain : String
  deriving DecidableEq, Repr

/-- Go `types.OutBoundTxParams`, the fields written by the handler. -/
structure OutBoundTxParams where
  OutBoundTXReceiveIndex : String
  OutBoundTxHash : String
  OutBoundTxFinalizedZetaHeight : Nat
  OutBoundTxObservedExternalHeight : Nat
  deriving DecidableEq, Repr

/-- Go `types.CrossChainTx`. -/
structure CrossChainTx where
  Index : String
  ZetaBurnt : Nat
  ZetaMint : Nat
  InBoundTxParams : InBoundTxParams
  OutBoundTxParams : OutBoundTxParams
  CctxStatus : Status
  deriving DecidableEq, Repr

/-- Go `types.Receive`: the aggregated votes on one digest. -/
structure Receive where
  Creator : String
  Index : String
  SendHash : String
  OutTxHash : String
  OutBlockHeight : Nat
  FinalizedZetaHeight : Nat
  Signers : List String
  Status : ReceiveStatus
  Chain : String
  deriving DecidableEq, Repr

/-- Go `types.MsgVoteOnObservedOutboundTx`. `ZetaMinted` is an `sdk.Uint`, a
wrapper of a `*big.Int`: a message that does not carry the field holds the
nil pointer, which is `none` here; `some n` is the amount `n`. -/
structure MsgVoteOnObservedOutboundTx where
  Creator : String
  CctxHash : String
  ObservedOutTxHash : String
  ObservedOutTxBlockHeight : Nat
  ZetaMinted : Option Nat
  Status : ReceiveStatus
  OutTxChain : String
  OutTxTssNonce : Nat
  deriving DecidableEq, Repr

/-- The part of `sdk.Context` the handler reads: `BlockHeader().Height`
(an `int64`) and `BlockHeader().Time.Unix()`. -/
structure Context where
  BlockHeight : Int
  BlockTime : Int
  deriving DecidableEq, Repr

/-- Errors returned by the handler, one constructor per `return` site. -/
inductive Err where
  /-- Line 19: `types.ErrNotBondedValidator`. -/
  | ErrNotBondedValidator (creator : String)
  /-- Line 31: `sdkerrors.ErrInvalidRequest`, CCTX not found among the pending ones. -/
  | CannotFindCctx (cctxIndex chain : String)
  /-- Line 37: `sdkerrors.ErrInvalidRequest`, `ZetaMinted` differs from `ZetaMint`. -/
  | MintMismatch (zetaMinted zetaMint : Nat)
  /-- Line 47: `sdkerrors.ErrorInvalidSigner`, the creator has already signed. -/
  | ErrorInvalidSigner (receiveIndex creator : String)
  /-- Line 52: `types.ErrUnsupportedChain`. -/
  | ErrUnsupportedChain
  /-- Line 96: `sdkerrors.ErrInvalidRequest`, the bank refused to mint. -/
  | FailedToMintCoins (cause : String)
  /-- Line 135: the error of `UpdatePrices`, returned as it is. -/
  | UpdatePricesFailed (cause : String)
  /-- Line 139: the error of `UpdateNonce`, returned as it is. -/
  | UpdateNonceFailed (cause : String)
  deriving DecidableEq, Repr

/-- How a call ends: normally, with an error value, or with a Go panic. -/
inductive Outcome where
  | ok
  | error (e : Err)
  | panic
  deriving DecidableEq, Repr

/-- Calls with a side effect, recorded in program order. -/
inductive Call where
  | MintCoins (moduleName denom : String) (amount : Nat)
  | UpdatePrices (chain : String) (cctx : CrossChainTx)
  | UpdateNonce (chain : String) (cctx : CrossChainTx)
  | RemoveOutTxTracker (index : String)
  | EmitReceiveSuccess (msg : MsgVoteOnObservedOutboundTx) (receive : Receive)
      (oldStatus newStatus : CctxStatus)
  | EmitReceiveFailure (msg : MsgVoteOnObservedOutboundTx) (receive : Receive)
      (oldStatus newStatus : CctxStatus)
  | CctxMigrateStatus (cctx : CrossChainTx) (oldStatus : CctxStatus)
  | SetReceive (receive : Receive)
  deriving DecidableEq, Repr

/-- The keyed store behind the keeper together with the record of calls. -/
structure Store where
  receives : String → Option Receive
  cctxs : String → Option CrossChainTx
  outTxTrackers : String → Bool
  calls : List Call

/-- Collaborators of the handler whose code lies outside the translated file:
constants, the validator set, the chain registry, the message digest, the
bank, and the price and nonce allocators (which receive the CCTX by pointer and
may change it, hence return it). -/
structure Keeper where
  ModuleName : String
  ZETADenom : String
  isAuthorized : String → Bool
  IsChainSupported : String → Bool
  hasSuperMajorityValidators : List String → Bool
  Digest : MsgVoteOnObservedOutboundTx → String
  MintCoins : String → String → Nat → Option String
  UpdatePrices : String → CrossChainTx → CrossChainTx × Option String
  UpdateNonce : String → CrossChainTx → CrossChainTx × Option String

/-! ## Integer conversions -/

/-- Go `uint64(x)` for an `int64` value `x`: reduction modulo `2^64`. -/
def toUint64 (x : Int) : Nat := (x % 2 ^ 64).toNat

/-- Go `int(x)` for a `uint64` value `x` on a 64-bit platform. -/
def toInt (x : Nat) : Int :=
  if x % 2 ^ 64 < 2 ^ 63 then (x % 2 ^ 64 : Nat) else (x % 2 ^ 64 : Nat) - 2 ^ 64

/-- The `sdk.Uint` subtraction `a.Sub(b)` of the Cosmos SDK: the difference
when it is not negative; a negative result makes the library panic, which is
`none` here. -/
def Uint.Sub (a b : Nat) : Option Nat :=
  if b ≤ a then some (a - b) else none

/-! ## Store operations -/

/-- Append a call to the record. -/
def Store.record (s : Store) (c : Call) : Store :=
  { s with calls := s.calls ++ [c] }

/-- `k.GetReceive(ctx, index)`. -/
def GetReceive (s : Store) (index : String) : Option Receive :=
  s.receives index

/-- `k.SetReceive(ctx, receive)`: write under the key `receive.Index`. -/
def SetReceive (s : Store) (receive : Receive) : Store :=
  { s with
    receives := fun i => if i = receive.Index then some receive else s.receives i
    calls := s.calls ++ [Call.SetReceive receive] }

/-- Modelled from the spec: `GetCctxByIndexAndStatuses` is not in the translated
file; the store interface of the spec is
`GetByIndexAndStatus(index, allowedStatuses) → (record, found)`: the record
stored under `index`, found when its status is one of the allowed ones. -/
def GetCctxByIndexAndStatuses (s : Store) (index : String)
    (statuses : List CctxStatus) : Option CrossChainTx :=
  match s.cctxs index with
  | some cctx => if cctx.CctxStatus.Status ∈ statuses then some cctx else none
  | none => none

/-- Modelled from the spec: `CctxMigrateStatus` is not in the translated file;
it persists the CCTX under its index, replacing the record stored under the
old status. -/
def CctxMigrateStatus (s : Store) (cctx : CrossChainTx) (oldStatus : CctxStatus) : Store :=
  { s with
    cctxs := fun i => if i = cctx.Index then some cctx else s.cctxs i
    calls := s.calls ++ [Call.CctxMigrateStatus cctx oldStatus] }

/-- `k.RemoveOutTxTracker(ctx, index)`. -/
def RemoveOutTxTracker (s : Store) (index : String) : Store :=
  { s with
    outTxTrackers := fun i => if i = index then false else s.outTxTrackers i
    calls := s.calls ++ [Call.RemoveOutTxTracker index] }

/-- Modelled from the spec: `isDuplicateSigner` is not in the translated file;
the spec rejects a vote when the voter "is already in `Signers`". -/
def isDuplicateSigner (creator : String) (signers : List String) : Bool :=
  signers.contains creator

/-- Modelled from the spec: `Status.ChangeStatus` is not in the translated file;
by the data model of the spec a transition sets the status and updates the
message and the last-update timestamp. -/
def ChangeStatus (m : Status) (ctx : Context) (newStatus : CctxStatus)
    (msg : String) : Status :=
  { m with Status := newStatus, StatusMessage := msg, LastUpdateTimestamp := ctx.BlockTime }

/-- `cctx.CctxStatus.ChangeStatus(&ctx, newStatus, msg, ...)` on a CCTX. -/
def cctxChangeStatus (cctx : CrossChainTx) (ctx : Context)
    (newStatus : CctxStatus) (msg : String) : CrossChainTx :=
  { cctx with CctxStatus := ChangeStatus cctx.CctxStatus ctx newStatus msg }

/-! ## The handler -/

/-- Go `HandleFeeBalances`: ask the bank to mint `balanceAmount` of the ZETA
denom to the module account; a bank error is wrapped and returned. -/
def HandleFeeBalances (k : Keeper) (s : Store) (balanceAmount : Nat) : Store × Option Err :=
  let err := k.MintCoins k.ModuleName k.ZETADenom balanceAmount
  (s.record (Call.MintCoins k.ModuleName k.ZETADenom balanceAmount),
    err.map Err.FailedToMintCoins)

/-- Result of `FinalizeReceive`: the store, the two records passed by pointer
as the call leaves them, and how the call ended. -/
structure FinalizeResult where
  store : Store
  cctx : CrossChainTx
  receive : Receive
  outcome : Outcome

/-- Go `FinalizeReceive`. -/
def FinalizeReceive (k : Keeper) (ctx : Context) (s : Store) (cctx : CrossChainTx)
    (msg : MsgVoteOnObservedOutboundTx) (receive : Receive) : FinalizeResult :=
  let receive := { receive with FinalizedZetaHeight := toUint64 ctx.BlockHeight }
  let cctx := { cctx with
    OutBoundTxParams := { cctx.OutBoundTxParams with
      OutBoundTxFinalizedZetaHeight := toUint64 ctx.BlockHeight
      OutBoundTxObservedExternalHeight := msg.ObservedOutTxBlockHeight } }
  let zetaBurnt := cctx.ZetaBurnt
  let zetaMinted := cctx.ZetaMint
  let oldStatus := cctx.CctxStatus.Status
  match receive.Status with
  | ReceiveStatus.Success =>
    let cctx :=
      match oldStatus with
      | CctxStatus.PendingRevert =>
        cctxChangeStatus cctx ctx CctxStatus.Reverted "Set To Final status"
      | CctxStatus.PendingOutbound =>
        cctxChangeStatus cctx ctx CctxStatus.OutboundMined "Set To Final status"
      | _ => cctx
    let newStatus := cctx.CctxStatus.Status
    -- `if zetaBurnt.LT(zetaMinted) { /* TODO :Handle Error ? */ }` has an empty body
    match Uint.Sub zetaBurnt zetaMinted with
    | none => { store := s, cctx := cctx, receive := receive, outcome := Outcome.panic }
    | some balanceAmount =>
      let fee := HandleFeeBalances k s balanceAmount
      match fee.2 with
      | some err =>
        { store := fee.1, cctx := cctx, receive := receive, outcome := Outcome.error err }
      | none =>
        { store := fee.1.record (Call.EmitReceiveSuccess msg receive oldStatus newStatus)
          cctx := cctx, receive := receive, outcome := Outcome.ok }
  | ReceiveStatus.Failed =>
    match oldStatus with
    | CctxStatus.PendingOutbound =>
      let chain := cctx.InBoundTxParams.SenderChain
      let s1 := s.record (Call.UpdatePrices chain cctx)
      let prices := k.UpdatePrices chain cctx
      let cctx1 := prices.1
      match prices.2 with
      | some cause =>
        { store := s1, cctx := cctx1, receive := receive
          outcome := Outcome.error (Err.UpdatePricesFailed cause) }
      | none =>
        let s2 := s1.record (Call.UpdateNonce chain cctx1)
        let nonce := k.UpdateNonce chain cctx1
        let cctx2 := nonce.1
        match nonce.2 with
        | some cause =>
          { store := s2, cctx := cctx2, receive := receive
            outcome := Outcome.error (Err.UpdateNonceFailed cause) }
        | none =>
          let cctx3 := cctxChangeStatus cctx2 ctx CctxStatus.PendingRevert
            "Outbound Failed , Starting Revert"
          { store := s2.record
              (Call.EmitReceiveFailure msg receive oldStatus cctx3.CctxStatus.Status)
            cctx := cctx3, receive := receive, outcome := Outcome.ok }
    | CctxStatus.PendingRevert =>
      let cctx1 := cctxChangeStatus cctx ctx CctxStatus.Aborted
        "Outbound Failed & Revert Failed , Abort TX"
      { store := s.record
          (Call.EmitReceiveFailure msg receive oldStatus cctx1.CctxStatus.Status)
        cctx := cctx1, receive := receive, outcome := Outcome.ok }
    | _ =>
      { store := s.record
          (Call.EmitReceiveFailure msg receive oldStatus cctx.CctxStatus.Status)
        cctx := cctx, receive := receive, outcome := Outcome.ok }
  | ReceiveStatus.Created =>
    { store := s, cctx := cctx, receive := receive, outcome := Outcome.ok }

/-- Key of the outbound tracker:
`fmt.Sprintf("%s-%s", msg.OutTxChain, strconv.Itoa(int(msg.OutTxTssNonce)))`. -/
def outTxTrackerIndex (msg : MsgVoteOnObservedOutboundTx) : String :=
  msg.OutTxChain ++ "-" ++ toString (toInt msg.OutTxTssNonce)

/-- Result of `VoteOnObservedOutboundTx`: the store as the handler leaves it
and how the call ended (`ok` stands for the empty response with a nil error). -/
structure VoteResult where
  store : Store
  outcome : Outcome

/-- Lines 44-65 of `VoteOnObservedOutboundTx`: the Receive the vote is counted
on, or the error that rejects the vote. -/
def countVote (k : Keeper) (s : Store) (msg : MsgVoteOnObservedOutboundTx)
    (receiveIndex : String) : Except Err Receive :=
  match GetReceive s receiveIndex with
  | some receive =>
    if isDuplicateSigner msg.Creator receive.Signers then
      Except.error (Err.ErrorInvalidSigner receiveIndex msg.Creator)
    else
      Except.ok { receive with Signers := receive.Signers ++ [msg.Creator] }
  | none =>
    if !k.IsChainSupported msg.OutTxChain then
      Except.error Err.ErrUnsupportedChain
    else
      Except.ok
        { Creator := ""
          Index := receiveIndex
          SendHash := msg.CctxHash
          OutTxHash := msg.ObservedOutTxHash
          OutBlockHeight := msg.ObservedOutTxBlockHeight
          FinalizedZetaHeight := 0
          Signers := [msg.Creator]
          Status := msg.Status
          Chain := msg.OutTxChain }

/-- Lines 34-39 of `VoteOnObservedOutboundTx`, the mint check: a vote that is
not Failed must report the minted amount the CCTX expects. The comparison
`msg.ZetaMinted.Equal(cctx.ZetaMint)` dereferences the `big.Int` of the
message and panics when the message does not carry the field. -/
def checkMint (msg : MsgVoteOnObservedOutboundTx) (cctx : CrossChainTx) : Outcome :=
  if msg.Status ≠ ReceiveStatus.Failed then
    match msg.ZetaMinted with
    | none => Outcome.panic
    | some zetaMinted =>
      if ¬ (zetaMinted = cctx.ZetaMint) then
        Outcome.error (Err.MintMismatch zetaMinted cctx.ZetaMint)
      else Outcome.ok
  else Outcome.ok

/-- Go `VoteOnObservedOutboundTx`. -/
def VoteOnObservedOutboundTx (k : Keeper) (ctx : Context) (s : Store)
    (msg : MsgVoteOnObservedOutboundTx) : VoteResult :=
  if !k.isAuthorized msg.Creator then
    { store := s, outcome := Outcome.error (Err.ErrNotBondedValidator msg.Creator) }
  else
    let CctxIndex := msg.CctxHash
    match GetCctxByIndexAndStatuses s CctxIndex
        [CctxStatus.PendingOutbound, CctxStatus.PendingRevert] with
    | none =>
      { store := s, outcome := Outcome.error (Err.CannotFindCctx CctxIndex msg.OutTxChain) }
    | some cctx =>
      match checkMint msg cctx with
      | Outcome.error err => { store := s, outcome := Outcome.error err }
      | Outcome.panic => { store := s, outcome := Outcome.panic }
      | Outcome.ok =>
        let receiveIndex := k.Digest msg
        match countVote k s msg receiveIndex with
        | Except.error err => { store := s, outcome := Outcome.error err }
        | Except.ok receive =>
          let hasEnoughVotes := k.hasSuperMajorityValidators receive.Signers
          if hasEnoughVotes then
            let oldStatus := cctx.CctxStatus.Status
            let fin := FinalizeReceive k ctx s cctx msg receive
            match fin.outcome with
            | Outcome.error err => { store := fin.store, outcome := Outcome.error err }
            | Outcome.panic => { store := fin.store, outcome := Outcome.panic }
            | Outcome.ok =>
              let receive := fin.receive
              let s1 :=
                if receive.Status = ReceiveStatus.Success
                    ∨ receive.Status = ReceiveStatus.Failed then
                  RemoveOutTxTracker fin.store (outTxTrackerIndex msg)
                else fin.store
              let cctx := { fin.cctx with
                OutBoundTxParams := { fin.cctx.OutBoundTxParams with
                  OutBoundTXReceiveIndex := receive.Index
                  OutBoundTxHash := receive.OutTxHash }
                CctxStatus := { fin.cctx.CctxStatus with
                  LastUpdateTimestamp := ctx.BlockTime } }
              let s2 := CctxMigrateStatus s1 cctx oldStatus
              { store := SetReceive s2 receive, outcome := Outcome.ok }
          else
            { store := SetReceive s receive, outcome := Outcome.ok }

/-- A vote as it reaches the handler: the collaborators and block context in
force when it is processed, and the message. -/
structure VoteCall where
  keeper : Keeper
  ctx : Context
  msg : MsgVoteOnObservedOutboundTx

/-- The store after a sequence of votes, each processed on the store the
previous one left. -/
def runVotes (s : Store) : List VoteCall → Store
  | [] => s
  | v :: vs => runVotes (VoteOnObservedOutboundTx v.keeper v.ctx s v.msg).store vs

/-! ## The transition table of the spec and sample data -/

/-- The transition table of the spec (section 4.2), keyed by the current CCTX
status and the status of the Receive. Pairs outside the table have no entry. -/
def transitionTable : CctxStatus → ReceiveStatus → Option CctxStatus
  | CctxStatus.PendingOutbound, ReceiveStatus.Success => some CctxStatus.OutboundMined
  | CctxStatus.PendingRevert, ReceiveStatus.Success => some CctxStatus.Reverted
  | CctxStatus.PendingOutbound, ReceiveStatus.Failed => some CctxStatus.PendingRevert
  | CctxStatus.PendingRevert, ReceiveStatus.Failed => some CctxStatus.Aborted
  | _, _ => none

/-- A keeper with three validators, quorum at two signers, one supported
chain, and collaborators that always succeed and leave the CCTX as it is. -/
def sampleKeeper : Keeper where
  ModuleName := "zetacore"
  ZETADenom := "azeta"
  isAuthorized := fun v => v = "val1" ∨ v = "val2" ∨ v = "val3"
  IsChainSupported := fun c => c = "GOERLI"
  hasSuperMajorityValidators := fun signers => 2 ≤ signers.length
  Digest := fun m => m.CctxHash ++ "/" ++ m.ObservedOutTxHash
  MintCoins := fun _ _ _ => none
  UpdatePrices := fun _ cctx => (cctx, none)
  UpdateNonce := fun _ cctx => (cctx, none)

/-- A block context: height 100, time 1700000000. -/
def sampleCtx : Context := { BlockHeight := 100, BlockTime := 1700000000 }

/-- A CCTX with index `cctx1`, burnt 10 and mint 7, in the given status. -/
def sampleCctx (st : CctxStatus) : CrossChainTx where
  Index := "cctx1"
  ZetaBurnt := 10
  ZetaMint := 7
  InBoundTxParams := { SenderChain := "BSC" }
  OutBoundTxParams :=
    { OutBoundTXReceiveIndex := "", OutBoundTxHash := ""
      OutBoundTxFinalizedZetaHeight := 0, OutBoundTxObservedExternalHeight := 0 }
  CctxStatus := { Status := st, StatusMessage := "", LastUpdateTimestamp := 0 }

/-- A vote of `creator` on `cctx1` with the given status and minted amount. -/
def sampleMsg (creator : String) (st : ReceiveStatus) (minted : Nat) :
    MsgVoteOnObservedOutboundTx where
  Creator := creator
  CctxHash := "cctx1"
  ObservedOutTxHash := "0xabc"
  ObservedOutTxBlockHeight := 55
  ZetaMinted := some minted
  Status := st
  OutTxChain := "GOERLI"
  OutTxTssNonce := 4

/-- The Receive for the digest of `sampleMsg` with the given signers, status
and finalized height. -/
def sampleReceive (signers : List String) (st : ReceiveStatus) (fin : Nat) : Receive where
  Creator := ""
  Index := "cctx1/0xabc"
  SendHash := "cctx1"
  OutTxHash := "0xabc"
  OutBlockHeight := 55
  FinalizedZetaHeight := fin
  Signers := signers
  Status := st
  Chain := "GOERLI"

/-- The store with nothing in it. -/
def emptyStore : Store where
  receives := fun _ => none
  cctxs := fun _ => none
  outTxTrackers := fun _ => false
  calls := []

/-- The store holding `cctx` under `cctx1` and, when given, one Receive under
the digest of `sampleMsg`, with the tracker of `sampleMsg` present. -/
def sampleStore (cctx : CrossChainTx) (receive : Option Receive) : Store where
  receives := fun i => if i = "cctx1/0xabc" then receive else none
  cctxs := fun i => if i = "cctx1" then some cctx else none
  outTxTrackers := fun i => i = "GOERLI-4"
  calls := []

/-- The vote of `creator` with status `st` and minted amount `minted`,
processed by `sampleKeeper` at block height `height`. -/
def sampleVote (creator : String) (st : ReceiveStatus) (minted : Nat) (height : Int) :
    VoteCall where
  keeper := sampleKeeper
  ctx := { BlockHeight := height, BlockTime := 1700000000 }
  msg := sampleMsg creator st minted

/-- The store reached from a PendingOutbound `cctx1` when `val1` and `val2`
report the outbound as Failed at height 100: quorum is reached on the second
vote. -/
def storeAfterFailedQuorum : Store :=
  runVotes (sampleStore (sampleCctx CctxStatus.PendingOutbound) none)
    [sampleVote "val1" ReceiveStatus.Failed 0 100, sampleVote "val2" ReceiveStatus.Failed 0 100]

/-- A store with the pending `cctx1` and a second CCTX `cctx0` that is already
Reverted. -/
def storeWithTerminal : Store where
  receives := fun _ => none
  cctxs := fun i =>
    if i = "cctx1" then some (sampleCctx CctxStatus.PendingOutbound)
    else if i = "cctx0" then some { sampleCctx CctxStatus.Reverted with Index := "cctx0" }
    else none
  outTxTrackers := fun i => i = "GOERLI-4"
  calls := []

/-- A CCTX whose expected mint (7) exceeds the burnt amount (5). -/
def underfundedCctx : CrossChainTx :=
  { sampleCctx CctxStatus.PendingOutbound with ZetaBurnt := 5 }

/-! ## Predicates used in the statements -/

/-- No stored Receive lists a signer twice. -/
def SignersNodup (s : Store) : Prop :=
  ∀ i r, s.receives i = some r → r.Signers.Nodup

/-- The terminal statuses of the spec: OutboundMined, Reverted, Aborted. -/
def isTerminal : CctxStatus → Bool
  | CctxStatus.OutboundMined => true
  | CctxStatus.Reverted => true
  | CctxStatus.Aborted => true
  | _ => false

/-- Every CCTX is stored under its own index. -/
def CctxKeyed (s : Store) : Prop :=
  ∀ i c, s.cctxs i = some c → c.Index = i

/-- The price and nonce allocators do not rename the CCTX they are given. -/
def KeepsIndex (k : Keeper) : Prop :=
  ∀ chain c, (k.UpdatePrices chain c).1.Index = c.Index
    ∧ (k.UpdateNonce chain c).1.Index = c.Index

/-- Whether a recorded call is a mint request to the bank. -/
def isMintCall : Call → Bool
  | Call.MintCoins _ _ _ => true
  | _ => false

/-- Lines 82-84 of `VoteOnObservedOutboundTx`, the CCTX persisted by a finalizing
vote: the one `FinalizeReceive` leaves,
with the Receive index, the outbound hash and the timestamp filled in. -/
def persistedCctx (ctx : Context) (fin : FinalizeResult) : CrossChainTx :=
  { fin.cctx with
    OutBoundTxParams := { fin.cctx.OutBoundTxParams with
      OutBoundTXReceiveIndex := fin.receive.Index
      OutBoundTxHash := fin.receive.OutTxHash }
    CctxStatus := { fin.cctx.CctxStatus with LastUpdateTimestamp := ctx.BlockTime } }

/-- Lines 76-87 of `VoteOnObservedOutboundTx`: the store written by a vote whose
finalization `fin` returned no error. -/
def finalizedStore (ctx : Context) (msg : MsgVoteOnObservedOutboundTx)
    (oldStatus : CctxStatus) (fin : FinalizeResult) : Store :=
  SetReceive
    (CctxMigrateStatus
      (if fin.receive.Status = ReceiveStatus.Success
          ∨ fin.receive.Status = ReceiveStatus.Failed then
        RemoveOutTxTracker fin.store (outTxTrackerIndex msg)
      else fin.store)
      (persistedCctx ctx fin) oldStatus)
    fin.receive

/-- A keeper like `sampleKeeper` whose bank refuses to mint. -/
def mintFailingKeeper : Keeper :=
  { sampleKeeper with MintCoins := fun _ _ _ => some "bank unavailable" }

/-- A keeper like `sampleKeeper` whose gas-price update fails. -/
def pricesFailingKeeper : Keeper :=
  { sampleKeeper with UpdatePrices := fun _ cctx => (cctx, some "no gas price") }

/-- Whether a recorded call writes a Receive, a CCTX or removes a tracker. -/
def isStoreWrite : Call → Bool
  | Call.SetReceive _ => true
  | Call.CctxMigrateStatus _ _ => true
  | Call.RemoveOutTxTracker _ => true
  | _ => false

/-- Whether a recorded call removes an outbound tracker. -/
def isTrackerRemoval : Call → Bool
  | Call.RemoveOutTxTracker _ => true
  | _ => false

/-- Whether a recorded call is a gas-price update or a nonce allocation. -/
def isAllocationCall : Call → Bool
  | Call.UpdatePrices _ _ => true
  | Call.UpdateNonce _ _ => true
  | _ => false

/-- Lines 103-104 of `FinalizeReceive`: the CCTX with the finalized height and
the observed external height recorded. -/
def recordHeights (ctx : Context) (msg : MsgVoteOnObservedOutboundTx)
    (cctx : CrossChainTx) : CrossChainTx :=
  { cctx with
    OutBoundTxParams := { cctx.OutBoundTxParams with
      OutBoundTxFinalizedZetaHeight := toUint64 ctx.BlockHeight
      OutBoundTxObservedExternalHeight := msg.ObservedOutTxBlockHeight } }

/-- The price and nonce allocators leave the two heights of the outbound
parameters as they find them. -/
def KeepsHeights (k : Keeper) : Prop :=
  ∀ chain c,
    (k.UpdatePrices chain c).1.OutBoundTxParams.OutBoundTxFinalizedZetaHeight
        = c.OutBoundTxParams.OutBoundTxFinalizedZetaHeight
      ∧ (k.UpdatePrices chain c).1.OutBoundTxParams.OutBoundTxObservedExternalHeight
        = c.OutBoundTxParams.OutBoundTxObservedExternalHeight
      ∧ (k.UpdateNonce chain c).1.OutBoundTxParams.OutBoundTxFinalizedZetaHeight
        = c.OutBoundTxParams.OutBoundTxFinalizedZetaHeight
      ∧ (k.UpdateNonce chain c).1.OutBoundTxParams.OutBoundTxObservedExternalHeight
        = c.OutBoundTxParams.OutBoundTxObservedExternalHeight

/-- The Receive a first vote creates (lines 54-64). -/
def newReceive (msg : MsgVoteOnObservedOutboundTx) (receiveIndex : String) : Receive where
  Creator := ""
  Index := receiveIndex
  SendHash := msg.CctxHash
  OutTxHash := msg.ObservedOutTxHash
  OutBlockHeight := msg.ObservedOutTxBlockHeight
  FinalizedZetaHeight := 0
  Signers := [msg.Creator]
  Status := msg.Status
  Chain := msg.OutTxChain

/-! ## The hardware signer (`zetaclient/hsm/hsm_signer.go`)

The PKCS#11 keyring, the process environment and the transaction builder of
the Cosmos SDK are collaborators: the keyring and the environment are fields
of `World`, the builder is a record holding the transaction under
construction. Calls to the hardware module are recorded in program order. -/

namespace Hsm

/-- Byte strings (`[]byte`); the nil slice is the empty list. -/
abbrev Bytes := List Nat

/-- Name of the environment variable with the module path. -/
def hsmPath : String := "HSM_PATH"

/-- Name of the environment variable with the PIN. -/
def hsmPIN : String := "HSM_PIN"

/-- Name of the environment variable with the token label. -/
def hsmLabel : String := "HSM_LABEL"

/-- The fields of `crypto11.Config` set by `GetPKCS11Config`. -/
structure Config where
  Path : String
  Pin : String
  TokenLabel : String
  deriving DecidableEq, Repr

/-- Sign modes of the Cosmos SDK (`signing.SignMode`). -/
inductive SignMode where
  | SIGN_MODE_UNSPECIFIED
  | SIGN_MODE_DIRECT
  | SIGN_MODE_TEXTUAL
  | SIGN_MODE_LEGACY_AMINO_JSON
  deriving DecidableEq, Repr

/-- Go `signing.SingleSignatureData`. -/
structure SingleSignatureData where
  SignMode : SignMode
  Signature : Bytes
  deriving DecidableEq, Repr

/-- Go `signing.SignatureV2`. -/
structure SignatureV2 where
  PubKey : Bytes
  Data : SingleSignatureData
  Sequence : Nat
  deriving DecidableEq, Repr

/-- Go `authsigning.SignerData`. -/
structure SignerData where
  ChainID : String
  AccountNumber : Nat
  Sequence : Nat
  PubKey : Bytes
  Address : String
  deriving DecidableEq, Repr

/-- The getters of `clienttx.Factory` read by `SignWithHSM`. -/
structure Factory where
  ChainID : String
  AccountNumber : Nat
  Sequence : Nat
  SignMode : SignMode
  deriving DecidableEq, Repr

/-- The transaction held by the builder: its body, the signers its messages
require, and the signatures set so far. -/
structure Tx where
  body : Bytes
  signers : List String
  signatures : List SignatureV2
  deriving DecidableEq, Repr

/-- Errors returned by the functions of the package, one constructor per
origin. -/
inductive Err where
  /-- Line 164: a configuration value is missing. -/
  | ConfigError
  /-- The error of `keystone.NewPkcs11`. -/
  | NewPkcs11Failed (cause : String)
  /-- The error of `keyring.Key`. -/
  | KeyFailed (cause : String)
  /-- The error of `key.Sign`. -/
  | KeySignFailed (cause : String)
  /-- Line 111: the error of `GetSignaturesV2`. -/
  | GetSignaturesFailed (cause : String)
  /-- Lines 123, 151, 154: the error of `SetSignatures`. -/
  | SetSignaturesFailed (cause : String)
  /-- Line 128: the error of `GetSignBytes`. -/
  | GetSignBytesFailed (cause : String)
  deriving DecidableEq, Repr

/-- A key of the keyring (`keystone.CryptoKey`): its public key, the address
of the public key, and its signing operation. -/
structure CryptoKey where
  PubKey : Bytes
  Address : Bytes
  Sign : Bytes → Except String Bytes

/-- The keyring opened by `keystone.NewPkcs11`. -/
structure Keyring where
  Key : String → Except String CryptoKey

/-- What lies outside the process: the environment variables, the hardware
module behind `keystone.NewPkcs11`, and the bech32 rendering of an address
(`sdk.AccAddress(address).String()`). -/
structure World where
  env : String → Option String
  NewPkcs11 : Config → Except String Keyring
  AccAddressString : Bytes → String

/-- Calls to the hardware module. -/
inductive HsmCall where
  | NewPkcs11 (config : Config)
  | Key (label : String)
  | Sign (msg : Bytes)
  deriving DecidableEq, Repr

/-- The transaction builder (`client.TxBuilder`): the transaction it holds and
the failures of its two operations. -/
structure TxBuilder where
  tx : Tx
  getSignaturesV2Err : Tx → Option String
  setSignaturesErr : Tx → List SignatureV2 → Option String

/-- The sign-mode handler of `client.TxConfig`. -/
structure TxConfig where
  GetSignBytes : SignMode → SignerData → Tx → Except String Bytes

/-- Go `os.Getenv`: the value of the variable, empty when it is not set. -/
def Getenv (w : World) (key : String) : String :=
  (w.env key).getD ""

/-- Go `txBuilder.GetTx()`. -/
def GetTx (b : TxBuilder) : Tx := b.tx

/-- Go `tx.GetSignaturesV2()`: the signatures of the transaction, or an error. -/
def GetSignaturesV2 (b : TxBuilder) : Except Err (List SignatureV2) :=
  match b.getSignaturesV2Err b.tx with
  | some cause => Except.error (Err.GetSignaturesFailed cause)
  | none => Except.ok b.tx.signatures

/-- Go `txBuilder.SetSignatures(sigs...)`: replace the signatures of the
transaction, or fail and leave it as it is. -/
def SetSignatures (b : TxBuilder) (sigs : List SignatureV2) : Except Err TxBuilder :=
  match b.setSignaturesErr b.tx sigs with
  | some cause => Except.error (Err.SetSignaturesFailed cause)
  | none => Except.ok { b with tx := { b.tx with signatures := sigs } }

/-- Go `GetPKCS11Config`: the configuration read from the environment, with
an error when one of the three values is empty. -/
def GetPKCS11Config (w : World) : Config × Option Err :=
  let config : Config :=
    { Path := Getenv w hsmPath, Pin := Getenv w hsmPIN, TokenLabel := Getenv w hsmLabel }
  if config.Path = "" ∨ config.Pin = "" ∨ config.TokenLabel = "" then
    (config, some Err.ConfigError)
  else
    (config, none)

/-- Go `Sign`: open the keyring, look the key up by its label, sign `msg`. -/
def Sign (w : World) (calls : List HsmCall) (config : Config) (msg : Bytes)
    (label : String) : List HsmCall × Except Err Bytes :=
  match w.NewPkcs11 config with
  | Except.error cause =>
    (calls ++ [HsmCall.NewPkcs11 config], Except.error (Err.NewPkcs11Failed cause))
  | Except.ok keyring =>
    match keyring.Key label with
    | Except.error cause =>
      (calls ++ [HsmCall.NewPkcs11 config, HsmCall.Key label],
        Except.error (Err.KeyFailed cause))
    | Except.ok key =>
      (calls ++ [HsmCall.NewPkcs11 config, HsmCall.Key label, HsmCall.Sign msg],
        match key.Sign msg with
        | Except.error cause => Except.error (Err.KeySignFailed cause)
        | Except.ok signature => Except.ok signature)

/-- Go `GetHSMAddress`: the key found under the label, from which the caller
takes `pubKey.Address()` and `pubKey`. -/
def GetHSMAddress (w : World) (calls : List HsmCall) (config : Config)
    (label : String) : List HsmCall × Except Err CryptoKey :=
  match w.NewPkcs11 config with
  | Except.error cause =>
    (calls ++ [HsmCall.NewPkcs11 config], Except.error (Err.NewPkcs11Failed cause))
  | Except.ok keyring =>
    (calls ++ [HsmCall.NewPkcs11 config, HsmCall.Key label],
      match keyring.Key label with
      | Except.error cause => Except.error (Err.KeyFailed cause)
      | Except.ok key => Except.ok key)

/-- Result of `SignWithHSM`: the builder as the call leaves it, the calls made
to the hardware module, and the error returned (`none` for nil). -/
structure SignResult where
  txBuilder : TxBuilder
  hsmCalls : List HsmCall
  err : Option Err

/-- The signature entry built at lines 99-107 and again at lines 140-148. -/
def mkSignature (pubKey : Bytes) (signMode : SignMode) (signature : Bytes)
    (sequence : Nat) : SignatureV2 :=
  { PubKey := pubKey, Data := { SignMode := signMode, Signature := signature }
    Sequence := sequence }

/-- Go `SignWithHSM`. -/
def SignWithHSM (w : World) (txf : Factory) (name : String) (txBuilder : TxBuilder)
    (overwriteSig : Bool) (txConfig : TxConfig) : SignResult :=
  let cfg := GetPKCS11Config w
  match cfg.2 with
  | some err => { txBuilder := txBuilder, hsmCalls := [], err := some err }
  | none =>
    let hsmCfg := cfg.1
    let found := GetHSMAddress w [] hsmCfg name
    match found.2 with
    | Except.error err => { txBuilder := txBuilder, hsmCalls := found.1, err := some err }
    | Except.ok key =>
      let pubKey := key.PubKey
      let signerData : SignerData :=
        { ChainID := txf.ChainID
          AccountNumber := txf.AccountNumber
          Sequence := txf.Sequence
          PubKey := pubKey
          Address := w.AccAddressString key.Address }
      let signMode := txf.SignMode
      let sig := mkSignature pubKey signMode [] txf.Sequence
      match (if !overwriteSig then GetSignaturesV2 txBuilder else Except.ok []) with
      | Except.error err => { txBuilder := txBuilder, hsmCalls := found.1, err := some err }
      | Except.ok prevSignatures =>
        let sigs := if overwriteSig then [sig] else prevSignatures ++ [sig]
        match SetSignatures txBuilder sigs with
        | Except.error err => { txBuilder := txBuilder, hsmCalls := found.1, err := some err }
        | Except.ok txBuilder1 =>
          match txConfig.GetSignBytes signMode signerData (GetTx txBuilder1) with
          | Except.error cause =>
            { txBuilder := txBuilder1, hsmCalls := found.1
              err := some (Err.GetSignBytesFailed cause) }
          | Except.ok bytesToSign =>
            let signed := Sign w found.1 hsmCfg bytesToSign name
            match signed.2 with
            | Except.error err =>
              { txBuilder := txBuilder1, hsmCalls := signed.1, err := some err }
            | Except.ok sigBytes =>
              let sig := mkSignature pubKey signMode sigBytes txf.Sequence
              let final := if overwriteSig then [sig] else prevSignatures ++ [sig]
              match SetSignatures txBuilder1 final with
              | Except.error err =>
                { txBuilder := txBuilder1, hsmCalls := signed.1, err := some err }
              | Except.ok txBuilder2 =>
                { txBuilder := txBuilder2, hsmCalls := signed.1, err := none }

/-- A key that signs by appending its public key to the reversed message. -/
def sampleKey : CryptoKey where
  PubKey := [2, 171, 205]
  Address := [17, 34]
  Sign := fun msg => Except.ok (msg.reverse ++ [2, 171, 205])

/-- A world with the three variables set and one key, `hsmkey`. -/
def sampleWorld : World where
  env := fun key =>
    if key = "HSM_PATH" then some "/usr/lib/libsofthsm2.so"
    else if key = "HSM_PIN" then some "1234"
    else if key = "HSM_LABEL" then some "zeta"
    else none
  NewPkcs11 := fun _ =>
    Except.ok { Key := fun label =>
      if label = "hsmkey" then Except.ok sampleKey else Except.error "key not found" }
  AccAddressString := fun _ => "zeta1qy3"

/-- The same world without the PIN. -/
def worldWithoutPin : World :=
  { sampleWorld with env := fun key =>
      if key = "HSM_PATH" then some "/usr/lib/libsofthsm2.so"
      else if key = "HSM_LABEL" then some "zeta"
      else none }

/-- A factory in DIRECT mode at sequence 9. -/
def sampleFactory : Factory where
  ChainID := "athens-1"
  AccountNumber := 3
  Sequence := 9
  SignMode := SignMode.SIGN_MODE_DIRECT

/-- A builder holding a transaction with two signers and one signature, whose
operations do not fail. -/
def twoSignerBuilder : TxBuilder where
  tx :=
    { body := [10, 20, 30]
      signers := ["zeta1alice", "zeta1bob"]
      signatures := [mkSignature [3, 1] SignMode.SIGN_MODE_DIRECT [7, 7] 4] }
  getSignaturesV2Err := fun _ => none
  setSignaturesErr := fun _ _ => none

/-- A sign-mode handler whose sign bytes are the body followed by the account
number, the sequence and the number of signer infos. -/
def sampleTxConfig : TxConfig where
  GetSignBytes := fun _ data tx =>
    Except.ok (tx.body ++ [data.AccountNumber, data.Sequence, tx.signatures.length])

end Hsm

/-! ## Outbound-transaction signing (`metaclient`)

Only the test of `Signer.Sign` is part of the translated sources; the
operation itself is modelled from the spec. -/

namespace Metaclient

/-- Byte strings (`[]byte`). -/
abbrev Bytes := List Nat

/-- The transaction envelope of the spec: destination contract, zero value,
encoded call data, nonce, gas price, gas limit, chain id, and the signature
once attached. -/
structure Transaction where
  To : Bytes
  Value : Nat
  Data : Bytes
  Nonce : Nat
  GasPrice : Nat
  GasLimit : Nat
  ChainID : Nat
  Signature : Option Bytes
  deriving DecidableEq, Repr

/-- Modelled from the spec: the Signer capability contract, `Address()`,
`Pubkey()` and `Sign(message)`, the threshold signer of the test being one
implementation of it. -/
structure TSSSigner where
  Address : Bytes
  Pubkey : Bytes
  Sign : Bytes → Except String Bytes

/-- Modelled from the spec: public-key recovery from a digest and a
recoverable signature (`crypto.Ecrecover(hash, sig)` in the test). -/
structure Crypto where
  Ecrecover : Bytes → Bytes → Except String Bytes

/-- Modelled from the spec: the signer of outbound transactions, with its
Signer capability, the destination contract, the chain id and the
chain-defined signing digest. -/
structure Signer where
  tssSigner : TSSSigner
  metaContractAddress : Bytes
  chainID : Nat
  SigningDigest : Transaction → Bytes

/-- Errors of `Signer.Sign` named by the spec. -/
inductive SignError where
  | SigningError (cause : String)
  | RecoveryMismatchError
  deriving DecidableEq, Repr

set_option linter.unusedVariables false in
/-- Modelled from the spec: `Signer.Sign` is not in the translated sources (only
its test is). By the spec it builds the canonical transaction envelope
(destination contract, zero value, encoded call data, nonce, gas price, gas
limit, chain id), computes the chain-defined signing digest, calls the
`Sign(digest)` of the Signer, recovers the public key from the digest and the
signature, fails with `RecoveryMismatchError` unless it equals
`Signer.Pubkey()`, and returns the signed transaction with the signature and
the digest. -/
def Sign (crypto : Crypto) (signer : Signer) (payload : Bytes) (fromAddress : Bytes)
    (nonce gasPrice gasLimit : Nat) : Except SignError (Transaction × Bytes × Bytes) :=
  let tx : Transaction :=
    { To := signer.metaContractAddress, Value := 0, Data := payload, Nonce := nonce
      GasPrice := gasPrice, GasLimit := gasLimit, ChainID := signer.chainID
      Signature := none }
  let digest := signer.SigningDigest tx
  match signer.tssSigner.Sign digest with
  | Except.error cause => Except.error (SignError.SigningError cause)
  | Except.ok sig =>
    match crypto.Ecrecover digest sig with
    | Except.error _ => Except.error SignError.RecoveryMismatchError
    | Except.ok recovered =>
      if recovered = signer.tssSigner.Pubkey then
        Except.ok ({ tx with Signature := some sig }, sig, digest)
      else
        Except.error SignError.RecoveryMismatchError

/-- A recovery that reads the public key appended to the digest. -/
def sampleCrypto : Crypto where
  Ecrecover := fun hash sig =>
    if sig.take hash.length = hash then Except.ok (sig.drop hash.length)
    else Except.error "invalid signature"

/-- A signer whose signature is the digest followed by its public key, on
chain 97, with a digest listing the fields of the envelope. -/
def sampleSigner : Signer where
  tssSigner :=
    { Address := [232, 11], Pubkey := [4, 5, 6]
      Sign := fun digest => Except.ok (digest ++ [4, 5, 6]) }
  metaContractAddress := [160, 1]
  chainID := 97
  SigningDigest := fun tx => tx.Data ++ [tx.Nonce, tx.GasPrice, tx.GasLimit, tx.ChainID]

end Metaclient

/-! ## Theorems -/

/-- C1: for a CCTX in PendingOutbound or PendingRevert and a Receive with status
Success or Failed, when `FinalizeReceive` returns no error the new status of the
CCTX is the entry of the transition table: OutboundMined, Reverted,
PendingRevert and Aborted for the four pairs. -/
theorem C1_finalize_follows_table (k : Keeper) (ctx : Context) (s : Store)
    (cctx : CrossChainTx) (msg : MsgVoteOnObservedOutboundTx) (receive : Receive)
    (hc : cctx.CctxStatus.Status = CctxStatus.PendingOutbound
      ∨ cctx.CctxStatus.Status = CctxStatus.PendingRevert)
    (hr : receive.Status = ReceiveStatus.Success ∨ receive.Status = ReceiveStatus.Failed)
    (hok : (FinalizeReceive k ctx s cctx msg receive).outcome = Outcome.ok) :
    some (FinalizeReceive k ctx s cctx msg receive).cctx.CctxStatus.Status
        = transitionTable cctx.CctxStatus.Status receive.Status
      ∧ (cctx.CctxStatus.Status = CctxStatus.PendingOutbound
          → receive.Status = ReceiveStatus.Success
          → (FinalizeReceive k ctx s cctx msg receive).cctx.CctxStatus.Status
              = CctxStatus.OutboundMined)
      ∧ (cctx.CctxStatus.Status = CctxStatus.PendingRevert
          → receive.Status = ReceiveStatus.Success
          → (FinalizeReceive k ctx s cctx msg receive).cctx.CctxStatus.Status
              = CctxStatus.Reverted)
      ∧ (cctx.CctxStatus.Status = CctxStatus.PendingOutbound
          → receive.Status = ReceiveStatus.Failed
          → (FinalizeReceive k ctx s cctx msg receive).cctx.CctxStatus.Status
              = CctxStatus.PendingRevert)
      ∧ (cctx.CctxStatus.Status = CctxStatus.PendingRevert
          → receive.Status = ReceiveStatus.Failed
          → (FinalizeReceive k ctx s cctx msg receive).cctx.CctxStatus.Status
              = CctxStatus.Aborted) := by
  rcases hc with hc | hc <;> rcases hr with hr | hr <;>
    simp only [FinalizeReceive, hc, hr, HandleFeeBalances] at hok ⊢ <;>
    (repeat' split at hok) <;>
    simp_all [transitionTable, cctxChangeStatus, ChangeStatus]

/-- C1 at a concrete input: a PendingOutbound CCTX finalized by a Success
Receive ends in OutboundMined. -/
theorem C1_finalize_follows_table_witness :
    some (FinalizeReceive sampleKeeper sampleCtx emptyStore
        (sampleCctx CctxStatus.PendingOutbound) (sampleMsg "val1" ReceiveStatus.Success 7)
        (sampleReceive ["val1", "val2"] ReceiveStatus.Success 0)).cctx.CctxStatus.Status
      = some CctxStatus.OutboundMined :=
  (C1_finalize_follows_table sampleKeeper sampleCtx emptyStore
    (sampleCctx CctxStatus.PendingOutbound) (sampleMsg "val1" ReceiveStatus.Success 7)
    (sampleReceive ["val1", "val2"] ReceiveStatus.Success 0)
    (Or.inl rfl) (Or.inl rfl) (by decide)).1

/-! ### Frame lemmas for `FinalizeReceive` -/

/-- `FinalizeReceive` writes no Receive, no CCTX and no tracker: it only
records calls. -/
theorem FinalizeReceive_frame (k : Keeper) (ctx : Context) (s : Store)
    (cctx : CrossChainTx) (msg : MsgVoteOnObservedOutboundTx) (receive : Receive) :
    (FinalizeReceive k ctx s cctx msg receive).store.receives = s.receives
      ∧ (FinalizeReceive k ctx s cctx msg receive).store.cctxs = s.cctxs
      ∧ (FinalizeReceive k ctx s cctx msg receive).store.outTxTrackers = s.outTxTrackers := by
  simp only [FinalizeReceive, HandleFeeBalances]
  repeat' split
  all_goals simp [Store.record]

/-- The Receive leaves `FinalizeReceive` with the finalized height set to the
block height and nothing else changed. -/
theorem FinalizeReceive_receive (k : Keeper) (ctx : Context) (s : Store)
    (cctx : CrossChainTx) (msg : MsgVoteOnObservedOutboundTx) (receive : Receive) :
    (FinalizeReceive k ctx s cctx msg receive).receive
      = { receive with FinalizedZetaHeight := toUint64 ctx.BlockHeight } := by
  simp only [FinalizeReceive, HandleFeeBalances]
  repeat' split
  all_goals rfl

/-- The ways `FinalizeReceive` can end. -/
theorem FinalizeReceive_outcome (k : Keeper) (ctx : Context) (s : Store)
    (cctx : CrossChainTx) (msg : MsgVoteOnObservedOutboundTx) (receive : Receive) :
    (FinalizeReceive k ctx s cctx msg receive).outcome = Outcome.ok
      ∨ (FinalizeReceive k ctx s cctx msg receive).outcome = Outcome.panic
      ∨ (∃ c, (FinalizeReceive k ctx s cctx msg receive).outcome
            = Outcome.error (Err.FailedToMintCoins c))
      ∨ (∃ c, (FinalizeReceive k ctx s cctx msg receive).outcome
            = Outcome.error (Err.UpdatePricesFailed c))
      ∨ (∃ c, (FinalizeReceive k ctx s cctx msg receive).outcome
            = Outcome.error (Err.UpdateNonceFailed c)) := by
  simp only [FinalizeReceive, HandleFeeBalances]
  repeat' split
  all_goals aesop

/-! ### One vote, path by path -/

/-- A vote of a creator that is not authorized is rejected on the first line. -/
theorem vote_unauthorized (k : Keeper) (ctx : Context) (s : Store)
    (msg : MsgVoteOnObservedOutboundTx) (h : k.isAuthorized msg.Creator = false) :
    VoteOnObservedOutboundTx k ctx s msg
      = { store := s, outcome := Outcome.error (Err.ErrNotBondedValidator msg.Creator) } := by
  simp [VoteOnObservedOutboundTx, h]

/-- A vote whose CCTX is not found among the pending ones is rejected. -/
theorem vote_cctx_not_found (k : Keeper) (ctx : Context) (s : Store)
    (msg : MsgVoteOnObservedOutboundTx) (ha : k.isAuthorized msg.Creator = true)
    (h : GetCctxByIndexAndStatuses s msg.CctxHash
      [CctxStatus.PendingOutbound, CctxStatus.PendingRevert] = none) :
    VoteOnObservedOutboundTx k ctx s msg
      = { store := s
          outcome := Outcome.error (Err.CannotFindCctx msg.CctxHash msg.OutTxChain) } := by
  simp [VoteOnObservedOutboundTx, ha, h]

/-- The mint check passes for a Failed vote and for a vote that reports the
minted amount the CCTX expects. -/
theorem checkMint_passed (msg : MsgVoteOnObservedOutboundTx) (cctx : CrossChainTx)
    (hm : msg.Status = ReceiveStatus.Failed ∨ msg.ZetaMinted = some cctx.ZetaMint) :
    checkMint msg cctx = Outcome.ok := by
  unfold checkMint
  rcases hm with h | h <;> simp [h]

/-- A vote that is not Failed and reports another minted amount than the CCTX
expects is rejected. -/
theorem vote_mint_mismatch (k : Keeper) (ctx : Context) (s : Store)
    (msg : MsgVoteOnObservedOutboundTx) (cctx : CrossChainTx) (minted : Nat)
    (ha : k.isAuthorized msg.Creator = true)
    (hc : GetCctxByIndexAndStatuses s msg.CctxHash
      [CctxStatus.PendingOutbound, CctxStatus.PendingRevert] = some cctx)
    (hs : msg.Status ≠ ReceiveStatus.Failed) (hset : msg.ZetaMinted = some minted)
    (hm : minted ≠ cctx.ZetaMint) :
    VoteOnObservedOutboundTx k ctx s msg
      = { store := s
          outcome := Outcome.error (Err.MintMismatch minted cctx.ZetaMint) } := by
  simp [VoteOnObservedOutboundTx, checkMint, ha, hc, hs, hset, hm]

/-- A vote that is not Failed and does not carry a minted amount panics in the
mint check, before any write. -/
theorem vote_unset_minted (k : Keeper) (ctx : Context) (s : Store)
    (msg : MsgVoteOnObservedOutboundTx) (cctx : CrossChainTx)
    (ha : k.isAuthorized msg.Creator = true)
    (hc : GetCctxByIndexAndStatuses s msg.CctxHash
      [CctxStatus.PendingOutbound, CctxStatus.PendingRevert] = some cctx)
    (hs : msg.Status ≠ ReceiveStatus.Failed) (hnone : msg.ZetaMinted = none) :
    VoteOnObservedOutboundTx k ctx s msg = { store := s, outcome := Outcome.panic } := by
  simp [VoteOnObservedOutboundTx, checkMint, ha, hc, hs, hnone]

/-- A vote either passes the mint check, or is not Failed and reports another
amount than expected, or is not Failed and carries no amount. -/
theorem mint_check_cases (msg : MsgVoteOnObservedOutboundTx) (cctx : CrossChainTx) :
    (msg.Status = ReceiveStatus.Failed ∨ msg.ZetaMinted = some cctx.ZetaMint)
      ∨ (msg.Status ≠ ReceiveStatus.Failed
          ∧ ∃ minted, msg.ZetaMinted = some minted ∧ minted ≠ cctx.ZetaMint)
      ∨ (msg.Status ≠ ReceiveStatus.Failed ∧ msg.ZetaMinted = none) := by
  by_cases hs : msg.Status = ReceiveStatus.Failed
  · exact Or.inl (Or.inl hs)
  · cases hz : msg.ZetaMinted with
    | none => exact Or.inr (Or.inr ⟨hs, rfl⟩)
    | some minted =>
      by_cases hm : minted = cctx.ZetaMint
      · exact Or.inl (Or.inr (by rw [hm]))
      · exact Or.inr (Or.inl ⟨hs, minted, rfl, hm⟩)

/-- A vote that passes the three checks and is rejected when it is counted. -/
theorem vote_count_error (k : Keeper) (ctx : Context) (s : Store)
    (msg : MsgVoteOnObservedOutboundTx) (cctx : CrossChainTx) (err : Err)
    (ha : k.isAuthorized msg.Creator = true)
    (hc : GetCctxByIndexAndStatuses s msg.CctxHash
      [CctxStatus.PendingOutbound, CctxStatus.PendingRevert] = some cctx)
    (hm : msg.Status = ReceiveStatus.Failed ∨ msg.ZetaMinted = some cctx.ZetaMint)
    (hv : countVote k s msg (k.Digest msg) = Except.error err) :
    VoteOnObservedOutboundTx k ctx s msg = { store := s, outcome := Outcome.error err } := by
  have hm2 := checkMint_passed msg cctx hm
  simp only [VoteOnObservedOutboundTx, ha, hc, hv, hm2]
  simp

/-- A counted vote that does not reach quorum only stores the Receive. -/
theorem vote_no_quorum (k : Keeper) (ctx : Context) (s : Store)
    (msg : MsgVoteOnObservedOutboundTx) (cctx : CrossChainTx) (receive : Receive)
    (ha : k.isAuthorized msg.Creator = true)
    (hc : GetCctxByIndexAndStatuses s msg.CctxHash
      [CctxStatus.PendingOutbound, CctxStatus.PendingRevert] = some cctx)
    (hm : msg.Status = ReceiveStatus.Failed ∨ msg.ZetaMinted = some cctx.ZetaMint)
    (hv : countVote k s msg (k.Digest msg) = Except.ok receive)
    (hq : k.hasSuperMajorityValidators receive.Signers = false) :
    VoteOnObservedOutboundTx k ctx s msg
      = { store := SetReceive s receive, outcome := Outcome.ok } := by
  have hm2 := checkMint_passed msg cctx hm
  simp only [VoteOnObservedOutboundTx, ha, hc, hv, hq, hm2]
  simp

/-- A counted vote that reaches quorum: the result is decided by `FinalizeReceive`. -/
theorem vote_quorum (k : Keeper) (ctx : Context) (s : Store)
    (msg : MsgVoteOnObservedOutboundTx) (cctx : CrossChainTx) (receive : Receive)
    (ha : k.isAuthorized msg.Creator = true)
    (hc : GetCctxByIndexAndStatuses s msg.CctxHash
      [CctxStatus.PendingOutbound, CctxStatus.PendingRevert] = some cctx)
    (hm : msg.Status = ReceiveStatus.Failed ∨ msg.ZetaMinted = some cctx.ZetaMint)
    (hv : countVote k s msg (k.Digest msg) = Except.ok receive)
    (hq : k.hasSuperMajorityValidators receive.Signers = true) :
    VoteOnObservedOutboundTx k ctx s msg
      = match (FinalizeReceive k ctx s cctx msg receive).outcome with
        | Outcome.error err =>
          { store := (FinalizeReceive k ctx s cctx msg receive).store
            outcome := Outcome.error err }
        | Outcome.panic =>
          { store := (FinalizeReceive k ctx s cctx msg receive).store
            outcome := Outcome.panic }
        | Outcome.ok =>
          { store := finalizedStore ctx msg cctx.CctxStatus.Status
              (FinalizeReceive k ctx s cctx msg receive)
            outcome := Outcome.ok } := by
  have hm2 := checkMint_passed msg cctx hm
  simp only [VoteOnObservedOutboundTx, ha, hc, hv, hq, hm2, persistedCctx, finalizedStore]
  simp

/-- Every vote takes one of three courses: it is rejected or its finalization
fails, leaving Receives, CCTXs and trackers as they were; it is counted
without quorum and only the Receive is stored; or it is counted with quorum,
finalization returns no error, and the finalized store is written. -/
theorem vote_cases (k : Keeper) (ctx : Context) (s : Store)
    (msg : MsgVoteOnObservedOutboundTx) :
    ((VoteOnObservedOutboundTx k ctx s msg).store.receives = s.receives
        ∧ (VoteOnObservedOutboundTx k ctx s msg).store.cctxs = s.cctxs
        ∧ (VoteOnObservedOutboundTx k ctx s msg).store.outTxTrackers = s.outTxTrackers
        ∧ (VoteOnObservedOutboundTx k ctx s msg).outcome ≠ Outcome.ok)
      ∨ ∃ cctx receive,
          GetCctxByIndexAndStatuses s msg.CctxHash
              [CctxStatus.PendingOutbound, CctxStatus.PendingRevert] = some cctx
            ∧ countVote k s msg (k.Digest msg) = Except.ok receive
            ∧ ((k.hasSuperMajorityValidators receive.Signers = false
                ∧ VoteOnObservedOutboundTx k ctx s msg
                  = { store := SetReceive s receive, outcome := Outcome.ok })
              ∨ (k.hasSuperMajorityValidators receive.Signers = true
                ∧ (FinalizeReceive k ctx s cctx msg receive).outcome = Outcome.ok
                ∧ VoteOnObservedOutboundTx k ctx s msg
                  = { store := finalizedStore ctx msg cctx.CctxStatus.Status
                        (FinalizeReceive k ctx s cctx msg receive)
                      outcome := Outcome.ok })) := by
  cases ha : k.isAuthorized msg.Creator with
  | false => left; rw [vote_unauthorized k ctx s msg ha]; simp
  | true =>
    cases hc : GetCctxByIndexAndStatuses s msg.CctxHash
        [CctxStatus.PendingOutbound, CctxStatus.PendingRevert] with
    | none => left; rw [vote_cctx_not_found k ctx s msg ha hc]; simp
    | some cctx =>
      rcases mint_check_cases msg cctx with hm | ⟨hs, minted, hset, hne⟩ | ⟨hs, hnone⟩
      · cases hv : countVote k s msg (k.Digest msg) with
        | error err => left; rw [vote_count_error k ctx s msg cctx err ha hc hm hv]; simp
        | ok receive =>
          cases hq : k.hasSuperMajorityValidators receive.Signers with
          | false =>
            right
            exact ⟨cctx, receive, rfl, rfl, Or.inl ⟨hq, vote_no_quorum k ctx s msg cctx receive ha hc hm hv hq⟩⟩
          | true =>
            have hvq := vote_quorum k ctx s msg cctx receive ha hc hm hv hq
            cases ho : (FinalizeReceive k ctx s cctx msg receive).outcome with
            | ok =>
              right
              rw [ho] at hvq
              exact ⟨cctx, receive, rfl, rfl, Or.inr ⟨hq, ho, hvq⟩⟩
            | error err =>
              left
              rw [ho] at hvq
              rw [hvq]
              have hf := FinalizeReceive_frame k ctx s cctx msg receive
              exact ⟨hf.1, hf.2.1, hf.2.2, by simp⟩
            | panic =>
              left
              rw [ho] at hvq
              rw [hvq]
              have hf := FinalizeReceive_frame k ctx s cctx msg receive
              exact ⟨hf.1, hf.2.1, hf.2.2, by simp⟩
      · left
        rw [vote_mint_mismatch k ctx s msg cctx minted ha hc hs hset hne]; simp
      · left
        rw [vote_unset_minted k ctx s msg cctx ha hc hs hnone]; simp

/-! ### What a finalizing vote writes -/

/-- The Receives after a finalizing vote: the finalized Receive under its
index, the others as before. -/
theorem finalizedStore_receives (ctx : Context) (msg : MsgVoteOnObservedOutboundTx)
    (oldStatus : CctxStatus) (fin : FinalizeResult) :
    (finalizedStore ctx msg oldStatus fin).receives
      = fun i => if i = fin.receive.Index then some fin.receive else fin.store.receives i := by
  unfold finalizedStore
  split <;> rfl

/-- The CCTXs after a finalizing vote: the persisted CCTX under its index, the
others as before. -/
theorem finalizedStore_cctxs (ctx : Context) (msg : MsgVoteOnObservedOutboundTx)
    (oldStatus : CctxStatus) (fin : FinalizeResult) :
    (finalizedStore ctx msg oldStatus fin).cctxs
      = fun i => if i = fin.cctx.Index then some (persistedCctx ctx fin)
          else fin.store.cctxs i := by
  unfold finalizedStore
  split <;> rfl

/-- A counted vote yields a Receive without repeated signers when the stored
ones have none. -/
theorem countVote_nodup (k : Keeper) (s : Store) (msg : MsgVoteOnObservedOutboundTx)
    (index : String) (receive : Receive) (hs : SignersNodup s)
    (hv : countVote k s msg index = Except.ok receive) : receive.Signers.Nodup := by
  unfold countVote GetReceive at hv
  split at hv
  · rename_i stored hstored
    split at hv
    · cases hv
    · rename_i hdup
      cases hv
      have hnot : msg.Creator ∉ stored.Signers := by
        simpa [isDuplicateSigner] using hdup
      have hn := hs index stored hstored
      simp only [List.nodup_append, List.nodup_cons, List.not_mem_nil, not_false_eq_true,
        List.nodup_nil, and_self, List.disjoint_singleton, true_and]
      exact ⟨hn, by simpa [List.Disjoint] using hnot⟩
  · split at hv
    · cases hv
    · cases hv
      simp

/-- One vote keeps the stored Signers lists free of repetitions. -/
theorem vote_preserves_nodup (k : Keeper) (ctx : Context) (s : Store)
    (msg : MsgVoteOnObservedOutboundTx) (hs : SignersNodup s) :
    SignersNodup (VoteOnObservedOutboundTx k ctx s msg).store := by
  rcases vote_cases k ctx s msg with
    ⟨hr, _, _, _⟩ | ⟨cctx, receive, _, hv, ⟨_, h⟩ | ⟨_, _, h⟩⟩
  · intro i r hir
    rw [hr] at hir
    exact hs i r hir
  · have hn := countVote_nodup k s msg _ receive hs hv
    rw [h]
    intro i r hir
    simp only [SetReceive] at hir
    split at hir
    · cases hir; exact hn
    · exact hs i r hir
  · have hn := countVote_nodup k s msg _ receive hs hv
    rw [h]
    intro i r hir
    simp only [finalizedStore_receives, FinalizeReceive_receive,
      (FinalizeReceive_frame k ctx s cctx msg receive).1] at hir
    split at hir
    · cases hir; exact hn
    · exact hs i r hir

/-! ### The claims -/

/-- C2, evaluated on the code: after `val1` and `val2` have reported the outbound
of `cctx1` as Failed (quorum, Receive finalized at height 100, CCTX moved to
PendingRevert), a third vote by `val3` on the same digest at height 101 is
accepted and finalizes again: the CCTX goes to Aborted and the finalized height
of the Receive is overwritten with 101. -/
theorem C2_finalized_receive_finalizes_again :
    (storeAfterFailedQuorum.receives "cctx1/0xabc").map (fun r => r.FinalizedZetaHeight)
        = some 100
      ∧ (storeAfterFailedQuorum.receives "cctx1/0xabc").map (fun r => r.Signers)
        = some ["val1", "val2"]
      ∧ (storeAfterFailedQuorum.cctxs "cctx1").map (fun c => c.CctxStatus.Status)
        = some CctxStatus.PendingRevert
      ∧ (VoteOnObservedOutboundTx sampleKeeper { BlockHeight := 101, BlockTime := 1700000006 }
          storeAfterFailedQuorum (sampleMsg "val3" ReceiveStatus.Failed 0)).outcome
        = Outcome.ok
      ∧ ((VoteOnObservedOutboundTx sampleKeeper { BlockHeight := 101, BlockTime := 1700000006 }
          storeAfterFailedQuorum (sampleMsg "val3" ReceiveStatus.Failed 0)).store.cctxs
            "cctx1").map (fun c => c.CctxStatus.Status)
        = some CctxStatus.Aborted
      ∧ ((VoteOnObservedOutboundTx sampleKeeper { BlockHeight := 101, BlockTime := 1700000006 }
          storeAfterFailedQuorum (sampleMsg "val3" ReceiveStatus.Failed 0)).store.receives
            "cctx1/0xabc").map (fun r => r.FinalizedZetaHeight)
        = some 101 := by
  decide

/-- C3 as stated fails: `val1` is already a signer of the stored Receive, the
CCTX has meanwhile been finalized to OutboundMined, and the repeated vote is
rejected with the CCTX-not-found error, not with the duplicate-vote error. -/
theorem C3_duplicate_vote_other_error :
    (sampleStore (sampleCctx CctxStatus.OutboundMined)
        (some (sampleReceive ["val1", "val2"] ReceiveStatus.Success 100))).receives
        (sampleKeeper.Digest (sampleMsg "val1" ReceiveStatus.Success 7))
      = some (sampleReceive ["val1", "val2"] ReceiveStatus.Success 100)
    ∧ "val1" ∈ (sampleReceive ["val1", "val2"] ReceiveStatus.Success 100).Signers
    ∧ (VoteOnObservedOutboundTx sampleKeeper sampleCtx
        (sampleStore (sampleCctx CctxStatus.OutboundMined)
          (some (sampleReceive ["val1", "val2"] ReceiveStatus.Success 100)))
        (sampleMsg "val1" ReceiveStatus.Success 7)).outcome
      = Outcome.error (Err.CannotFindCctx "cctx1" "GOERLI")
    ∧ (VoteOnObservedOutboundTx sampleKeeper sampleCtx
        (sampleStore (sampleCctx CctxStatus.OutboundMined)
          (some (sampleReceive ["val1", "val2"] ReceiveStatus.Success 100)))
        (sampleMsg "val1" ReceiveStatus.Success 7)).outcome
      ≠ Outcome.error (Err.ErrorInvalidSigner "cctx1/0xabc" "val1") := by
  decide

/-- C3, amended: a vote whose creator is already in the Signers of the stored
Receive for its digest is rejected with the store left exactly as it was (no
write, no recorded call), and the error is that of the first check that fails:
the not-bonded-validator error when the creator is not authorized; otherwise
the CCTX-not-found error when no pending CCTX is stored under the index;
otherwise the mint-mismatch error when the vote is not Failed and reports
another minted amount than the CCTX expects; otherwise, the three checks
passed, the duplicate-vote error. (A vote that is not Failed and carries no
minted amount is not covered.) -/
theorem C3_duplicate_vote_rejected (k : Keeper) (ctx : Context) (s : Store)
    (msg : MsgVoteOnObservedOutboundTx) (receive : Receive)
    (hrec : s.receives (k.Digest msg) = some receive)
    (hdup : msg.Creator ∈ receive.Signers) :
    (k.isAuthorized msg.Creator = false
        → VoteOnObservedOutboundTx k ctx s msg
            = { store := s
                outcome := Outcome.error (Err.ErrNotBondedValidator msg.Creator) })
      ∧ (k.isAuthorized msg.Creator = true
        → GetCctxByIndexAndStatuses s msg.CctxHash
            [CctxStatus.PendingOutbound, CctxStatus.PendingRevert] = none
        → VoteOnObservedOutboundTx k ctx s msg
            = { store := s
                outcome := Outcome.error (Err.CannotFindCctx msg.CctxHash msg.OutTxChain) })
      ∧ (∀ cctx minted, k.isAuthorized msg.Creator = true
        → GetCctxByIndexAndStatuses s msg.CctxHash
            [CctxStatus.PendingOutbound, CctxStatus.PendingRevert] = some cctx
        → msg.Status ≠ ReceiveStatus.Failed
        → msg.ZetaMinted = some minted
        → minted ≠ cctx.ZetaMint
        → VoteOnObservedOutboundTx k ctx s msg
            = { store := s
                outcome := Outcome.error (Err.MintMismatch minted cctx.ZetaMint) })
      ∧ ∀ cctx, k.isAuthorized msg.Creator = true
          → GetCctxByIndexAndStatuses s msg.CctxHash
              [CctxStatus.PendingOutbound, CctxStatus.PendingRevert] = some cctx
          → (msg.Status = ReceiveStatus.Failed ∨ msg.ZetaMinted = some cctx.ZetaMint)
          → VoteOnObservedOutboundTx k ctx s msg
              = { store := s
                  outcome := Outcome.error
                    (Err.ErrorInvalidSigner (k.Digest msg) msg.Creator) } := by
  have hv : countVote k s msg (k.Digest msg)
      = Except.error (Err.ErrorInvalidSigner (k.Digest msg) msg.Creator) := by
    simp [countVote, GetReceive, hrec, isDuplicateSigner, hdup]
  exact ⟨fun ha => vote_unauthorized k ctx s msg ha,
    fun ha hc => vote_cctx_not_found k ctx s msg ha hc,
    fun cctx minted ha hc hs hset hne =>
      vote_mint_mismatch k ctx s msg cctx minted ha hc hs hset hne,
    fun cctx ha hc hm => vote_count_error k ctx s msg cctx _ ha hc hm hv⟩

/-- C3 at concrete inputs, `val1` voting a second time: on a pending CCTX with
the expected amount the vote gets the duplicate-vote error; with the amount 3
against an expected 7 it gets the mint-mismatch error; by an identity that is
not a validator it gets the not-bonded-validator error; the store is
unchanged each time. -/
theorem C3_duplicate_vote_rejected_witness :
    VoteOnObservedOutboundTx sampleKeeper sampleCtx
        (sampleStore (sampleCctx CctxStatus.PendingOutbound)
          (some (sampleReceive ["val1"] ReceiveStatus.Success 0)))
        (sampleMsg "val1" ReceiveStatus.Success 7)
      = { store := sampleStore (sampleCctx CctxStatus.PendingOutbound)
            (some (sampleReceive ["val1"] ReceiveStatus.Success 0))
          outcome := Outcome.error (Err.ErrorInvalidSigner "cctx1/0xabc" "val1") }
    ∧ VoteOnObservedOutboundTx sampleKeeper sampleCtx
        (sampleStore (sampleCctx CctxStatus.PendingOutbound)
          (some (sampleReceive ["val1"] ReceiveStatus.Success 0)))
        (sampleMsg "val1" ReceiveStatus.Success 3)
      = { store := sampleStore (sampleCctx CctxStatus.PendingOutbound)
            (some (sampleReceive ["val1"] ReceiveStatus.Success 0))
          outcome := Outcome.error (Err.MintMismatch 3 7) }
    ∧ VoteOnObservedOutboundTx sampleKeeper sampleCtx
        (sampleStore (sampleCctx CctxStatus.PendingOutbound)
          (some (sampleReceive ["mallory"] ReceiveStatus.Success 0)))
        (sampleMsg "mallory" ReceiveStatus.Success 7)
      = { store := sampleStore (sampleCctx CctxStatus.PendingOutbound)
            (some (sampleReceive ["mallory"] ReceiveStatus.Success 0))
          outcome := Outcome.error (Err.ErrNotBondedValidator "mallory") } :=
  ⟨(C3_duplicate_vote_rejected sampleKeeper sampleCtx
      (sampleStore (sampleCctx CctxStatus.PendingOutbound)
        (some (sampleReceive ["val1"] ReceiveStatus.Success 0)))
      (sampleMsg "val1" ReceiveStatus.Success 7)
      (sampleReceive ["val1"] ReceiveStatus.Success 0) (by decide) (by decide)).2.2.2
      (sampleCctx CctxStatus.PendingOutbound) (by decide) (by decide) (by decide),
   (C3_duplicate_vote_rejected sampleKeeper sampleCtx
      (sampleStore (sampleCctx CctxStatus.PendingOutbound)
        (some (sampleReceive ["val1"] ReceiveStatus.Success 0)))
      (sampleMsg "val1" ReceiveStatus.Success 3)
      (sampleReceive ["val1"] ReceiveStatus.Success 0) (by decide) (by decide)).2.2.1
      (sampleCctx CctxStatus.PendingOutbound) 3 (by decide) (by decide) (by decide)
      (by decide) (by decide),
   (C3_duplicate_vote_rejected sampleKeeper sampleCtx
      (sampleStore (sampleCctx CctxStatus.PendingOutbound)
        (some (sampleReceive ["mallory"] ReceiveStatus.Success 0)))
      (sampleMsg "mallory" ReceiveStatus.Success 7)
      (sampleReceive ["mallory"] ReceiveStatus.Success 0) (by decide) (by decide)).1
      (by decide)⟩

/-- C4: when no stored Receive lists a signer twice, the same holds after any
sequence of votes, whether they are accepted or rejected. -/
theorem C4_signers_stay_distinct (s : Store) (votes : List VoteCall)
    (hs : SignersNodup s) : SignersNodup (runVotes s votes) := by
  induction votes generalizing s with
  | nil => exact hs
  | cons v vs ih => exact ih _ (vote_preserves_nodup v.keeper v.ctx s v.msg hs)

/-- C5: a vote of a creator that is not authorized is rejected with the
not-bonded-validator error whatever its other fields are, and the store is left
exactly as it was: no Receive, Signers list, CCTX or tracker is created or
changed and no call is recorded. -/
theorem C5_unauthorized_vote_rejected (k : Keeper) (ctx : Context) (s : Store)
    (msg : MsgVoteOnObservedOutboundTx) (h : k.isAuthorized msg.Creator = false) :
    VoteOnObservedOutboundTx k ctx s msg
      = { store := s, outcome := Outcome.error (Err.ErrNotBondedValidator msg.Creator) } := by
  simp [VoteOnObservedOutboundTx, h]

/-- C5 at a concrete input: `mallory` is not a validator of `sampleKeeper`. -/
theorem C5_unauthorized_vote_rejected_witness :
    VoteOnObservedOutboundTx sampleKeeper sampleCtx
        (sampleStore (sampleCctx CctxStatus.PendingOutbound) none)
        (sampleMsg "mallory" ReceiveStatus.Success 7)
      = { store := sampleStore (sampleCctx CctxStatus.PendingOutbound) none
          outcome := Outcome.error (Err.ErrNotBondedValidator "mallory") } :=
  C5_unauthorized_vote_rejected sampleKeeper sampleCtx
    (sampleStore (sampleCctx CctxStatus.PendingOutbound) none)
    (sampleMsg "mallory" ReceiveStatus.Success 7) (by decide)

/-- C4 at a concrete input: a repeated vote of `val1` and a first vote of `val2`
on a Receive signed by `val1` leave the Signers `val1`, `val2`. -/
theorem C4_signers_stay_distinct_witness :
    SignersNodup (runVotes
        (sampleStore (sampleCctx CctxStatus.PendingOutbound)
          (some (sampleReceive ["val1"] ReceiveStatus.Failed 0)))
        [sampleVote "val1" ReceiveStatus.Failed 0 100,
          sampleVote "val2" ReceiveStatus.Failed 0 100])
      ∧ ((runVotes
        (sampleStore (sampleCctx CctxStatus.PendingOutbound)
          (some (sampleReceive ["val1"] ReceiveStatus.Failed 0)))
        [sampleVote "val1" ReceiveStatus.Failed 0 100,
          sampleVote "val2" ReceiveStatus.Failed 0 100]).receives "cctx1/0xabc").map
          (fun r => r.Signers) = some ["val1", "val2"] :=
  ⟨C4_signers_stay_distinct
    (sampleStore (sampleCctx CctxStatus.PendingOutbound)
      (some (sampleReceive ["val1"] ReceiveStatus.Failed 0)))
    [sampleVote "val1" ReceiveStatus.Failed 0 100,
      sampleVote "val2" ReceiveStatus.Failed 0 100]
    (by
      intro i r h
      simp only [sampleStore] at h
      split at h
      · cases h; decide
      · cases h),
   by decide⟩

/-! ### Terminal CCTXs -/

/-- A CCTX found by `GetCctxByIndexAndStatuses` is the one stored under the
index, and its status is one of those asked for. -/
theorem GetCctxByIndexAndStatuses_some (s : Store) (index : String)
    (statuses : List CctxStatus) (cctx : CrossChainTx)
    (h : GetCctxByIndexAndStatuses s index statuses = some cctx) :
    s.cctxs index = some cctx ∧ cctx.CctxStatus.Status ∈ statuses := by
  unfold GetCctxByIndexAndStatuses at h
  split at h
  · split at h
    · cases h
      exact ⟨by assumption, by assumption⟩
    · cases h
  · cases h

/-- When the allocators keep the index, so does `FinalizeReceive`. -/
theorem FinalizeReceive_index (k : Keeper) (ctx : Context) (s : Store)
    (cctx : CrossChainTx) (msg : MsgVoteOnObservedOutboundTx) (receive : Receive)
    (hk : KeepsIndex k) :
    (FinalizeReceive k ctx s cctx msg receive).cctx.Index = cctx.Index := by
  simp only [FinalizeReceive]
  repeat' split
  all_goals simp [cctxChangeStatus, (hk _ _).1, (hk _ _).2]

/-- One vote leaves a terminal CCTX as it is stored, and keeps every CCTX
under its own index. -/
theorem vote_keeps_terminal (k : Keeper) (ctx : Context) (s : Store)
    (msg : MsgVoteOnObservedOutboundTx) (hs : CctxKeyed s) (hk : KeepsIndex k) :
    CctxKeyed (VoteOnObservedOutboundTx k ctx s msg).store
      ∧ ∀ i c, s.cctxs i = some c → isTerminal c.CctxStatus.Status = true
          → (VoteOnObservedOutboundTx k ctx s msg).store.cctxs i = some c := by
  unfold CctxKeyed at hs ⊢
  rcases vote_cases k ctx s msg with
    ⟨_, hc, _, _⟩ | ⟨cctx, receive, hg, _, ⟨_, h⟩ | ⟨_, _, h⟩⟩
  · rw [hc]
    exact ⟨hs, fun i c hi _ => hi⟩
  · rw [h]
    exact ⟨hs, fun i c hi _ => hi⟩
  · have hfound := GetCctxByIndexAndStatuses_some s _ _ cctx hg
    have hidx : (FinalizeReceive k ctx s cctx msg receive).cctx.Index = msg.CctxHash := by
      rw [FinalizeReceive_index k ctx s cctx msg receive hk]
      exact hs _ _ hfound.1
    rw [h]
    simp only [finalizedStore_cctxs, (FinalizeReceive_frame k ctx s cctx msg receive).2.1, hidx]
    constructor
    · intro i c hi
      split at hi
      · cases hi
        rename_i hieq
        rw [hieq]
        exact hidx
      · exact hs i c hi
    · intro i c hi hterm
      split
      · rename_i hieq
        rw [hieq, hfound.1] at hi
        cases hi
        have hmem := hfound.2
        simp only [List.mem_cons, List.mem_singleton, List.not_mem_nil, or_false] at hmem
        rcases hmem with hm | hm <;> rw [hm] at hterm <;> cases hterm
      · exact hi

/-- A sequence of votes leaves a terminal CCTX as it is stored. -/
theorem runVotes_keeps_terminal (votes : List VoteCall) (s : Store) (hs : CctxKeyed s)
    (hk : ∀ v ∈ votes, KeepsIndex v.keeper) (i : String) (c : CrossChainTx)
    (hi : s.cctxs i = some c) (hterm : isTerminal c.CctxStatus.Status = true) :
    (runVotes s votes).cctxs i = some c := by
  induction votes generalizing s with
  | nil => exact hi
  | cons v vs ih =>
    have hv := vote_keeps_terminal v.keeper v.ctx s v.msg hs (hk v (List.mem_cons_self _ _))
    exact ih _ hv.1 (fun w hw => hk w (List.mem_cons_of_mem _ hw)) (hv.2 i c hi hterm)

/-- C6: an authorized vote whose CCTX index is absent from the store, or whose
CCTX is in a terminal status, is rejected with an error and the store is left
exactly as it was; hence a CCTX in a terminal status stays as it is stored
through any sequence of votes (in a store that keeps every CCTX under its own
index, with allocators that do not rename a CCTX). -/
theorem C6_terminal_cctx_rejects_votes :
    (∀ (k : Keeper) (ctx : Context) (s : Store) (msg : MsgVoteOnObservedOutboundTx),
        k.isAuthorized msg.Creator = true
        → (s.cctxs msg.CctxHash = none
            ∨ ∃ c, s.cctxs msg.CctxHash = some c ∧ isTerminal c.CctxStatus.Status = true)
        → VoteOnObservedOutboundTx k ctx s msg
            = { store := s
                outcome := Outcome.error (Err.CannotFindCctx msg.CctxHash msg.OutTxChain) })
      ∧ ∀ (s : Store) (votes : List VoteCall) (i : String) (c : CrossChainTx),
          CctxKeyed s → (∀ v ∈ votes, KeepsIndex v.keeper)
          → s.cctxs i = some c → isTerminal c.CctxStatus.Status = true
          → (runVotes s votes).cctxs i = some c := by
  refine ⟨?_, fun s votes i c hs hk hi hterm => runVotes_keeps_terminal votes s hs hk i c hi hterm⟩
  intro k ctx s msg ha h
  apply vote_cctx_not_found k ctx s msg ha
  unfold GetCctxByIndexAndStatuses
  rcases h with h | ⟨c, h, hterm⟩
  · rw [h]
  · rw [h]
    have : c.CctxStatus.Status ∉ [CctxStatus.PendingOutbound, CctxStatus.PendingRevert] := by
      intro hmem
      simp only [List.mem_cons, List.mem_singleton, List.not_mem_nil, or_false] at hmem
      rcases hmem with hm | hm <;> rw [hm] at hterm <;> cases hterm
    simp [this]

/-- C6 at concrete inputs: a vote on the Reverted `cctx1` is rejected, and two
Success votes that finalize `cctx1` leave the Reverted `cctx0` untouched. -/
theorem C6_terminal_cctx_rejects_votes_witness :
    VoteOnObservedOutboundTx sampleKeeper sampleCtx
        (sampleStore (sampleCctx CctxStatus.Reverted) none)
        (sampleMsg "val1" ReceiveStatus.Success 7)
      = { store := sampleStore (sampleCctx CctxStatus.Reverted) none
          outcome := Outcome.error (Err.CannotFindCctx "cctx1" "GOERLI") }
    ∧ (runVotes storeWithTerminal
        [sampleVote "val1" ReceiveStatus.Success 7 100,
          sampleVote "val2" ReceiveStatus.Success 7 100]).cctxs "cctx0"
      = some { sampleCctx CctxStatus.Reverted with Index := "cctx0" } :=
  ⟨C6_terminal_cctx_rejects_votes.1 sampleKeeper sampleCtx
      (sampleStore (sampleCctx CctxStatus.Reverted) none)
      (sampleMsg "val1" ReceiveStatus.Success 7) (by decide)
      (Or.inr ⟨sampleCctx CctxStatus.Reverted, by decide, by decide⟩),
   C6_terminal_cctx_rejects_votes.2 storeWithTerminal
      [sampleVote "val1" ReceiveStatus.Success 7 100,
        sampleVote "val2" ReceiveStatus.Success 7 100]
      "cctx0" { sampleCctx CctxStatus.Reverted with Index := "cctx0" }
      (by
        intro i c h
        simp only [storeWithTerminal] at h
        split at h
        · cases h; rename_i hi; rw [hi]; rfl
        · split at h
          · cases h; rename_i hi; rw [hi]
          · cases h)
      (by
        intro v hv chain c
        simp only [List.mem_cons, List.mem_singleton, List.not_mem_nil, or_false] at hv
        rcases hv with hv | hv <;> rw [hv] <;> exact ⟨rfl, rfl⟩)
      (by decide) (by decide)⟩

/-! ### Errors of a vote that passed the checks -/

/-- The two errors `countVote` can return. -/
theorem countVote_error (k : Keeper) (s : Store) (msg : MsgVoteOnObservedOutboundTx)
    (index : String) (err : Err) (hv : countVote k s msg index = Except.error err) :
    err = Err.ErrorInvalidSigner index msg.Creator ∨ err = Err.ErrUnsupportedChain := by
  unfold countVote at hv
  split at hv
  · split at hv
    · cases hv; exact Or.inl rfl
    · cases hv
  · split at hv
    · cases hv; exact Or.inr rfl
    · cases hv

/-- A vote that passes authorization, the CCTX lookup and the mint check does
not end with the mint-mismatch error. -/
theorem vote_passed_not_mismatch (k : Keeper) (ctx : Context) (s : Store)
    (msg : MsgVoteOnObservedOutboundTx) (cctx : CrossChainTx)
    (ha : k.isAuthorized msg.Creator = true)
    (hc : GetCctxByIndexAndStatuses s msg.CctxHash
      [CctxStatus.PendingOutbound, CctxStatus.PendingRevert] = some cctx)
    (hm : msg.Status = ReceiveStatus.Failed ∨ msg.ZetaMinted = some cctx.ZetaMint)
    (a b : Nat) :
    (VoteOnObservedOutboundTx k ctx s msg).outcome ≠ Outcome.error (Err.MintMismatch a b) := by
  cases hv : countVote k s msg (k.Digest msg) with
  | error err =>
    rw [vote_count_error k ctx s msg cctx err ha hc hm hv]
    rcases countVote_error k s msg _ err hv with h | h <;> rw [h] <;> simp
  | ok receive =>
    cases hq : k.hasSuperMajorityValidators receive.Signers with
    | false => rw [vote_no_quorum k ctx s msg cctx receive ha hc hm hv hq]; simp
    | true =>
      rw [vote_quorum k ctx s msg cctx receive ha hc hm hv hq]
      rcases FinalizeReceive_outcome k ctx s cctx msg receive with
        h | h | ⟨c, h⟩ | ⟨c, h⟩ | ⟨c, h⟩ <;> rw [h] <;> simp

/-- A vote that passes authorization, the CCTX lookup and the mint check and
is counted does not end with the unsupported-chain error. -/
theorem vote_counted_not_unsupported (k : Keeper) (ctx : Context) (s : Store)
    (msg : MsgVoteOnObservedOutboundTx) (cctx : CrossChainTx) (receive : Receive)
    (ha : k.isAuthorized msg.Creator = true)
    (hc : GetCctxByIndexAndStatuses s msg.CctxHash
      [CctxStatus.PendingOutbound, CctxStatus.PendingRevert] = some cctx)
    (hm : msg.Status = ReceiveStatus.Failed ∨ msg.ZetaMinted = some cctx.ZetaMint)
    (hv : countVote k s msg (k.Digest msg) = Except.ok receive) :
    (VoteOnObservedOutboundTx k ctx s msg).outcome ≠ Outcome.error Err.ErrUnsupportedChain := by
  cases hq : k.hasSuperMajorityValidators receive.Signers with
  | false => rw [vote_no_quorum k ctx s msg cctx receive ha hc hm hv hq]; simp
  | true =>
    rw [vote_quorum k ctx s msg cctx receive ha hc hm hv hq]
    rcases FinalizeReceive_outcome k ctx s cctx msg receive with
      h | h | ⟨c, h⟩ | ⟨c, h⟩ | ⟨c, h⟩ <;> rw [h] <;> simp

/-- C7 as stated fails: a vote with status Created (neither Success nor Failed)
whose minted amount 3 differs from the expected 7 is rejected with the
mint-mismatch error. -/
theorem C7_created_vote_mint_checked :
    (sampleMsg "val1" ReceiveStatus.Created 3).Status ≠ ReceiveStatus.Success
      ∧ sampleKeeper.isAuthorized (sampleMsg "val1" ReceiveStatus.Created 3).Creator = true
      ∧ GetCctxByIndexAndStatuses (sampleStore (sampleCctx CctxStatus.PendingOutbound) none)
          (sampleMsg "val1" ReceiveStatus.Created 3).CctxHash
          [CctxStatus.PendingOutbound, CctxStatus.PendingRevert]
        = some (sampleCctx CctxStatus.PendingOutbound)
      ∧ (VoteOnObservedOutboundTx sampleKeeper sampleCtx
          (sampleStore (sampleCctx CctxStatus.PendingOutbound) none)
          (sampleMsg "val1" ReceiveStatus.Created 3)).outcome
        = Outcome.error (Err.MintMismatch 3 7) := by
  decide

/-- C7, amended: an authorized vote on an existing pending CCTX that carries a
ZetaMinted amount is rejected with the mint-mismatch error if and only if
its status is not Failed and the amount differs from the ZetaMint of the CCTX;
the rejection leaves the store exactly as it was; a vote with status Failed,
with or without an amount, is never rejected with the mint-mismatch error.
(A vote that is not Failed and carries no amount is not covered.) -/
theorem C7_mint_check (k : Keeper) (ctx : Context) (s : Store)
    (msg : MsgVoteOnObservedOutboundTx) (cctx : CrossChainTx)
    (ha : k.isAuthorized msg.Creator = true)
    (hc : GetCctxByIndexAndStatuses s msg.CctxHash
      [CctxStatus.PendingOutbound, CctxStatus.PendingRevert] = some cctx) :
    (∀ minted, msg.ZetaMinted = some minted →
        ((∃ a b, (VoteOnObservedOutboundTx k ctx s msg).outcome
              = Outcome.error (Err.MintMismatch a b))
            ↔ (msg.Status ≠ ReceiveStatus.Failed ∧ minted ≠ cctx.ZetaMint))
          ∧ (msg.Status ≠ ReceiveStatus.Failed → minted ≠ cctx.ZetaMint
              → VoteOnObservedOutboundTx k ctx s msg
                  = { store := s
                      outcome := Outcome.error (Err.MintMismatch minted cctx.ZetaMint) }))
      ∧ (msg.Status = ReceiveStatus.Failed
          → ∀ a b, (VoteOnObservedOutboundTx k ctx s msg).outcome
              ≠ Outcome.error (Err.MintMismatch a b)) := by
  refine ⟨fun minted hset => ⟨⟨?_, ?_⟩,
      fun hs hz => vote_mint_mismatch k ctx s msg cctx minted ha hc hs hset hz⟩,
    fun hf a b => vote_passed_not_mismatch k ctx s msg cctx ha hc (Or.inl hf) a b⟩
  · rintro ⟨a, b, hab⟩
    by_contra hnot
    have hm : msg.Status = ReceiveStatus.Failed ∨ msg.ZetaMinted = some cctx.ZetaMint := by
      by_cases h1 : msg.Status = ReceiveStatus.Failed
      · exact Or.inl h1
      · by_cases h2 : minted = cctx.ZetaMint
        · exact Or.inr (by rw [hset, h2])
        · exact absurd ⟨h1, h2⟩ hnot
    exact vote_passed_not_mismatch k ctx s msg cctx ha hc hm a b hab
  · rintro ⟨hs, hz⟩
    exact ⟨_, _, by rw [vote_mint_mismatch k ctx s msg cctx minted ha hc hs hset hz]⟩

/-- C7 at a concrete input: a Success vote reporting 3 minted against an expected
mint of 7 is rejected, the store unchanged. -/
theorem C7_mint_check_witness :
    VoteOnObservedOutboundTx sampleKeeper sampleCtx
        (sampleStore (sampleCctx CctxStatus.PendingOutbound) none)
        (sampleMsg "val1" ReceiveStatus.Success 3)
      = { store := sampleStore (sampleCctx CctxStatus.PendingOutbound) none
          outcome := Outcome.error (Err.MintMismatch 3 7) } :=
  ((C7_mint_check sampleKeeper sampleCtx
    (sampleStore (sampleCctx CctxStatus.PendingOutbound) none)
    (sampleMsg "val1" ReceiveStatus.Success 3) (sampleCctx CctxStatus.PendingOutbound)
    (by decide) (by decide)).1 3 rfl).2 (by decide) (by decide)

/-! ### The chain-support check -/

/-- C8: for a vote that passes authorization, the CCTX lookup and the mint check
and whose digest has no stored Receive, the vote ends with the
unsupported-chain error if and only if its OutTxChain is not supported, and
then the store is left exactly as it was (no Receive is created); when a
Receive for the digest exists, the result does not depend on the chain-support
answer and is never the unsupported-chain error. -/
theorem C8_chain_support_check (k : Keeper) (ctx : Context) (s : Store)
    (msg : MsgVoteOnObservedOutboundTx) (cctx : CrossChainTx)
    (ha : k.isAuthorized msg.Creator = true)
    (hc : GetCctxByIndexAndStatuses s msg.CctxHash
      [CctxStatus.PendingOutbound, CctxStatus.PendingRevert] = some cctx)
    (hm : msg.Status = ReceiveStatus.Failed ∨ msg.ZetaMinted = some cctx.ZetaMint) :
    (s.receives (k.Digest msg) = none →
        ((VoteOnObservedOutboundTx k ctx s msg).outcome = Outcome.error Err.ErrUnsupportedChain
            ↔ k.IsChainSupported msg.OutTxChain = false)
          ∧ (k.IsChainSupported msg.OutTxChain = false
              → VoteOnObservedOutboundTx k ctx s msg
                  = { store := s, outcome := Outcome.error Err.ErrUnsupportedChain }))
      ∧ ∀ receive, s.receives (k.Digest msg) = some receive →
          (VoteOnObservedOutboundTx k ctx s msg).outcome
              ≠ Outcome.error Err.ErrUnsupportedChain
            ∧ ∀ f : String → Bool,
                VoteOnObservedOutboundTx { k with IsChainSupported := f } ctx s msg
                  = VoteOnObservedOutboundTx k ctx s msg := by
  constructor
  · intro hnone
    have hunsup : k.IsChainSupported msg.OutTxChain = false
        → VoteOnObservedOutboundTx k ctx s msg
            = { store := s, outcome := Outcome.error Err.ErrUnsupportedChain } := by
      intro hf
      apply vote_count_error k ctx s msg cctx _ ha hc hm
      simp [countVote, GetReceive, hnone, hf]
    refine ⟨⟨?_, fun hf => by rw [hunsup hf]⟩, hunsup⟩
    intro hout
    cases hsup : k.IsChainSupported msg.OutTxChain with
    | false => rfl
    | true =>
      have hv : ∃ receive, countVote k s msg (k.Digest msg) = Except.ok receive := by
        simp [countVote, GetReceive, hnone, hsup]
      obtain ⟨receive, hv⟩ := hv
      exact absurd hout (vote_counted_not_unsupported k ctx s msg cctx receive ha hc hm hv)
  · intro receive hrec
    constructor
    · cases hv : countVote k s msg (k.Digest msg) with
      | ok counted => exact vote_counted_not_unsupported k ctx s msg cctx counted ha hc hm hv
      | error err =>
        rw [vote_count_error k ctx s msg cctx err ha hc hm hv]
        have herr : err = Err.ErrorInvalidSigner (k.Digest msg) msg.Creator := by
          simp only [countVote, GetReceive, hrec] at hv
          split at hv
          · cases hv; rfl
          · cases hv
        rw [herr]
        simp
    · intro f
      have hcv : countVote { k with IsChainSupported := f } s msg (k.Digest msg)
          = countVote k s msg (k.Digest msg) := by
        simp [countVote, GetReceive, hrec]
      have hfin : ∀ c r, FinalizeReceive { k with IsChainSupported := f } ctx s c msg r
          = FinalizeReceive k ctx s c msg r := fun _ _ => rfl
      simp only [VoteOnObservedOutboundTx, hcv, hfin]

/-- C8 at a concrete input: a first vote for an outbound on the unsupported chain
`MUMBAI` is rejected and no Receive is created. -/
theorem C8_chain_support_check_witness :
    VoteOnObservedOutboundTx sampleKeeper sampleCtx
        (sampleStore (sampleCctx CctxStatus.PendingOutbound) none)
        { sampleMsg "val1" ReceiveStatus.Success 7 with OutTxChain := "MUMBAI" }
      = { store := sampleStore (sampleCctx CctxStatus.PendingOutbound) none
          outcome := Outcome.error Err.ErrUnsupportedChain } :=
  ((C8_chain_support_check sampleKeeper sampleCtx
    (sampleStore (sampleCctx CctxStatus.PendingOutbound) none)
    { sampleMsg "val1" ReceiveStatus.Success 7 with OutTxChain := "MUMBAI" }
    (sampleCctx CctxStatus.PendingOutbound)
    (by decide) (by decide) (by decide)).1 (by decide)).2 (by decide)

/-! ### The fee mint -/

/-- C9: a Success finalization of a CCTX with ZetaMint <= ZetaBurnt records
exactly one mint request, for ZetaBurnt - ZetaMint of the ZETA denom to the
module account; a Failed finalization records no mint request. -/
theorem C9_fee_mint (k : Keeper) (ctx : Context) (s : Store)
    (cctx : CrossChainTx) (msg : MsgVoteOnObservedOutboundTx) (receive : Receive) :
    (receive.Status = ReceiveStatus.Success → cctx.ZetaMint ≤ cctx.ZetaBurnt →
        ∃ added, (FinalizeReceive k ctx s cctx msg receive).store.calls = s.calls ++ added
          ∧ added.filter isMintCall
            = [Call.MintCoins k.ModuleName k.ZETADenom (cctx.ZetaBurnt - cctx.ZetaMint)])
      ∧ (receive.Status = ReceiveStatus.Failed →
        ∃ added, (FinalizeReceive k ctx s cctx msg receive).store.calls = s.calls ++ added
          ∧ added.filter isMintCall = []) := by
  constructor
  · intro hr hle
    simp only [FinalizeReceive, hr, Uint.Sub, hle, if_true, HandleFeeBalances]
    cases hmint : k.MintCoins k.ModuleName k.ZETADenom (cctx.ZetaBurnt - cctx.ZetaMint) with
    | some cause =>
      simp only [Option.map, Store.record]
      exact ⟨_, rfl, by simp [isMintCall]⟩
    | none =>
      simp only [Option.map, Store.record]
      exact ⟨_, List.append_assoc _ _ _, by simp [isMintCall]⟩
  · intro hr
    simp only [FinalizeReceive, hr]
    repeat' split
    all_goals
      simp only [Store.record, List.append_assoc]
      exact ⟨_, rfl, by simp [isMintCall]⟩

/-- C9 at a concrete input: burnt 10 and mint 7 give one mint request of 3 `azeta`
to the module `zetacore`. -/
theorem C9_fee_mint_witness :
    ∃ added,
      (FinalizeReceive sampleKeeper sampleCtx emptyStore
          (sampleCctx CctxStatus.PendingOutbound) (sampleMsg "val2" ReceiveStatus.Success 7)
          (sampleReceive ["val1", "val2"] ReceiveStatus.Success 0)).store.calls
        = emptyStore.calls ++ added
      ∧ added.filter isMintCall = [Call.MintCoins "zetacore" "azeta" 3] :=
  (C9_fee_mint sampleKeeper sampleCtx emptyStore
    (sampleCctx CctxStatus.PendingOutbound) (sampleMsg "val2" ReceiveStatus.Success 7)
    (sampleReceive ["val1", "val2"] ReceiveStatus.Success 0)).1 rfl (by decide)

/-- C10, evaluated on the code: for a CCTX with burnt 5 and mint 7 finalized by a
Success Receive, `FinalizeReceive` neither returns an error nor mints a fee of
zero: the comparison `zetaBurnt.LT(zetaMinted)` has an empty body, the status
has already been set to OutboundMined on the CCTX passed in, and the
subtraction `zetaBurnt.Sub(zetaMinted)` panics before any mint request; the
vote that reaches quorum for it ends the same way. -/
theorem C10_mint_above_burnt_unhandled :
    underfundedCctx.ZetaBurnt < underfundedCctx.ZetaMint
      ∧ (FinalizeReceive sampleKeeper sampleCtx emptyStore underfundedCctx
          (sampleMsg "val2" ReceiveStatus.Success 7)
          (sampleReceive ["val1", "val2"] ReceiveStatus.Success 0)).outcome = Outcome.panic
      ∧ (FinalizeReceive sampleKeeper sampleCtx emptyStore underfundedCctx
          (sampleMsg "val2" ReceiveStatus.Success 7)
          (sampleReceive ["val1", "val2"] ReceiveStatus.Success 0)).cctx.CctxStatus.Status
        = CctxStatus.OutboundMined
      ∧ (FinalizeReceive sampleKeeper sampleCtx emptyStore underfundedCctx
          (sampleMsg "val2" ReceiveStatus.Success 7)
          (sampleReceive ["val1", "val2"] ReceiveStatus.Success 0)).store.calls = []
      ∧ (VoteOnObservedOutboundTx sampleKeeper sampleCtx
          (sampleStore underfundedCctx (some (sampleReceive ["val1"] ReceiveStatus.Success 0)))
          (sampleMsg "val2" ReceiveStatus.Success 7)).outcome = Outcome.panic := by
  decide

/-! ### Calls recorded by a finalization -/

/-- `FinalizeReceive` only appends to the record of calls, and none of the calls
it appends writes a Receive, writes a CCTX or removes a tracker. -/
theorem FinalizeReceive_calls (k : Keeper) (ctx : Context) (s : Store)
    (cctx : CrossChainTx) (msg : MsgVoteOnObservedOutboundTx) (receive : Receive) :
    ∃ added, (FinalizeReceive k ctx s cctx msg receive).store.calls = s.calls ++ added
      ∧ added.filter isStoreWrite = [] := by
  simp only [FinalizeReceive, HandleFeeBalances]
  repeat' split
  all_goals
    simp only [Store.record, List.append_assoc]
    first
      | exact ⟨[], (List.append_nil _).symm, rfl⟩
      | exact ⟨_, rfl, by simp [isStoreWrite]⟩

/-- The calls a finalizing vote records after those of `FinalizeReceive`: the
tracker removal when the Receive is Success or Failed, then the CCTX
migration, then the Receive write. -/
theorem finalizedStore_calls (ctx : Context) (msg : MsgVoteOnObservedOutboundTx)
    (oldStatus : CctxStatus) (fin : FinalizeResult) :
    (finalizedStore ctx msg oldStatus fin).calls
      = fin.store.calls
        ++ ((if fin.receive.Status = ReceiveStatus.Success
                ∨ fin.receive.Status = ReceiveStatus.Failed then
              [Call.RemoveOutTxTracker (outTxTrackerIndex msg)] else [])
          ++ [Call.CctxMigrateStatus (persistedCctx ctx fin) oldStatus,
              Call.SetReceive fin.receive]) := by
  unfold finalizedStore
  split <;> simp [SetReceive, CctxMigrateStatus, RemoveOutTxTracker]

/-- The trackers after a finalizing vote. -/
theorem finalizedStore_trackers (ctx : Context) (msg : MsgVoteOnObservedOutboundTx)
    (oldStatus : CctxStatus) (fin : FinalizeResult) :
    (finalizedStore ctx msg oldStatus fin).outTxTrackers
      = if fin.receive.Status = ReceiveStatus.Success
            ∨ fin.receive.Status = ReceiveStatus.Failed then
          fun i => if i = outTxTrackerIndex msg then false else fin.store.outTxTrackers i
        else fin.store.outTxTrackers := by
  unfold finalizedStore
  split <;> rfl

/-- C11: when a vote reaches quorum and its finalization returns an error (the
wrapped mint error, or the error of UpdatePrices or UpdateNonce), the vote
returns that error, the stored Receives (with their Signers), the stored CCTXs
and the trackers are as before the call, and no Receive write, CCTX migration
or tracker removal is recorded. -/
theorem C11_failed_finalization_persists_nothing (k : Keeper) (ctx : Context) (s : Store)
    (msg : MsgVoteOnObservedOutboundTx) (cctx : CrossChainTx) (receive : Receive) (err : Err)
    (ha : k.isAuthorized msg.Creator = true)
    (hc : GetCctxByIndexAndStatuses s msg.CctxHash
      [CctxStatus.PendingOutbound, CctxStatus.PendingRevert] = some cctx)
    (hm : msg.Status = ReceiveStatus.Failed ∨ msg.ZetaMinted = some cctx.ZetaMint)
    (hv : countVote k s msg (k.Digest msg) = Except.ok receive)
    (hq : k.hasSuperMajorityValidators receive.Signers = true)
    (hfail : (FinalizeReceive k ctx s cctx msg receive).outcome = Outcome.error err) :
    (VoteOnObservedOutboundTx k ctx s msg).outcome = Outcome.error err
      ∧ ((∃ c, err = Err.FailedToMintCoins c) ∨ (∃ c, err = Err.UpdatePricesFailed c)
          ∨ ∃ c, err = Err.UpdateNonceFailed c)
      ∧ (VoteOnObservedOutboundTx k ctx s msg).store.receives = s.receives
      ∧ (VoteOnObservedOutboundTx k ctx s msg).store.cctxs = s.cctxs
      ∧ (VoteOnObservedOutboundTx k ctx s msg).store.outTxTrackers = s.outTxTrackers
      ∧ ∃ added, (VoteOnObservedOutboundTx k ctx s msg).store.calls = s.calls ++ added
          ∧ added.filter isStoreWrite = [] := by
  have hvq := vote_quorum k ctx s msg cctx receive ha hc hm hv hq
  rw [hfail] at hvq
  have hf := FinalizeReceive_frame k ctx s cctx msg receive
  have hkind : (∃ c, err = Err.FailedToMintCoins c) ∨ (∃ c, err = Err.UpdatePricesFailed c)
      ∨ ∃ c, err = Err.UpdateNonceFailed c := by
    rcases FinalizeReceive_outcome k ctx s cctx msg receive with
      h | h | ⟨c, h⟩ | ⟨c, h⟩ | ⟨c, h⟩ <;> rw [hfail] at h
    · cases h
    · cases h
    · cases h; exact Or.inl ⟨c, rfl⟩
    · cases h; exact Or.inr (Or.inl ⟨c, rfl⟩)
    · cases h; exact Or.inr (Or.inr ⟨c, rfl⟩)
  rw [hvq]
  exact ⟨rfl, hkind, hf.1, hf.2.1, hf.2.2, FinalizeReceive_calls k ctx s cctx msg receive⟩

/-- C11 at a concrete input: the vote of `val2` completes quorum for a Success
Receive, the bank refuses to mint, and the vote returns the wrapped bank error. -/
theorem C11_failed_finalization_persists_nothing_witness :
    (VoteOnObservedOutboundTx mintFailingKeeper sampleCtx
        (sampleStore (sampleCctx CctxStatus.PendingOutbound)
          (some (sampleReceive ["val1"] ReceiveStatus.Success 0)))
        (sampleMsg "val2" ReceiveStatus.Success 7)).outcome
      = Outcome.error (Err.FailedToMintCoins "bank unavailable")
    ∧ (VoteOnObservedOutboundTx mintFailingKeeper sampleCtx
        (sampleStore (sampleCctx CctxStatus.PendingOutbound)
          (some (sampleReceive ["val1"] ReceiveStatus.Success 0)))
        (sampleMsg "val2" ReceiveStatus.Success 7)).store.cctxs
      = (sampleStore (sampleCctx CctxStatus.PendingOutbound)
          (some (sampleReceive ["val1"] ReceiveStatus.Success 0))).cctxs :=
  have h := C11_failed_finalization_persists_nothing mintFailingKeeper sampleCtx
    (sampleStore (sampleCctx CctxStatus.PendingOutbound)
      (some (sampleReceive ["val1"] ReceiveStatus.Success 0)))
    (sampleMsg "val2" ReceiveStatus.Success 7) (sampleCctx CctxStatus.PendingOutbound)
    (sampleReceive ["val1", "val2"] ReceiveStatus.Success 0)
    (Err.FailedToMintCoins "bank unavailable")
    (by decide) (by decide) (by decide) rfl (by decide) (by decide)
  ⟨h.1, h.2.2.2.1⟩

/-- A list without store writes has no tracker removal. -/
theorem no_write_no_removal (added : List Call) (h : added.filter isStoreWrite = []) :
    added.filter isTrackerRemoval = [] := by
  rw [List.filter_eq_nil_iff] at h ⊢
  intro c hc hrem
  apply h c hc
  cases c <;> simp_all [isTrackerRemoval, isStoreWrite]

/-- For an accepted vote the outbound tracker is removed exactly when quorum
is reached (finalization then having returned no error) and the status of the
Receive is Success or Failed; the removal is recorded once, under the key
formed from the outbound chain and the TSS nonce of the vote, and otherwise
no removal is recorded and the trackers are as before. -/
theorem vote_tracker_removal (k : Keeper) (ctx : Context) (s : Store)
    (msg : MsgVoteOnObservedOutboundTx)
    (hok : (VoteOnObservedOutboundTx k ctx s msg).outcome = Outcome.ok) :
    ∃ cctx receive added,
      GetCctxByIndexAndStatuses s msg.CctxHash
          [CctxStatus.PendingOutbound, CctxStatus.PendingRevert] = some cctx
        ∧ countVote k s msg (k.Digest msg) = Except.ok receive
        ∧ (k.hasSuperMajorityValidators receive.Signers = true
            → (FinalizeReceive k ctx s cctx msg receive).outcome = Outcome.ok)
        ∧ (VoteOnObservedOutboundTx k ctx s msg).store.calls = s.calls ++ added
        ∧ ((k.hasSuperMajorityValidators receive.Signers = true
              ∧ (receive.Status = ReceiveStatus.Success
                ∨ receive.Status = ReceiveStatus.Failed))
            → added.filter isTrackerRemoval
                = [Call.RemoveOutTxTracker (outTxTrackerIndex msg)]
              ∧ (VoteOnObservedOutboundTx k ctx s msg).store.outTxTrackers
                = fun i => if i = outTxTrackerIndex msg then false else s.outTxTrackers i)
        ∧ (¬ (k.hasSuperMajorityValidators receive.Signers = true
              ∧ (receive.Status = ReceiveStatus.Success
                ∨ receive.Status = ReceiveStatus.Failed))
            → added.filter isTrackerRemoval = []
              ∧ (VoteOnObservedOutboundTx k ctx s msg).store.outTxTrackers
                = s.outTxTrackers) := by
  rcases vote_cases k ctx s msg with
    ⟨_, _, _, hne⟩ | ⟨cctx, receive, hc, hv, ⟨hq, h⟩ | ⟨hq, hfin, h⟩⟩
  · exact absurd hok hne
  · refine ⟨cctx, receive, [Call.SetReceive receive], hc, hv, ?_, ?_, ?_, ?_⟩
    · intro hq2; rw [hq] at hq2; cases hq2
    · rw [h]; rfl
    · rintro ⟨hq2, _⟩; rw [hq] at hq2; cases hq2
    · intro _
      rw [h]
      exact ⟨by simp [isTrackerRemoval], rfl⟩
  · obtain ⟨a1, hcalls, hnow⟩ := FinalizeReceive_calls k ctx s cctx msg receive
    have hrem := no_write_no_removal a1 hnow
    have hst : (FinalizeReceive k ctx s cctx msg receive).receive.Status = receive.Status := by
      rw [FinalizeReceive_receive]
    have htr := (FinalizeReceive_frame k ctx s cctx msg receive).2.2
    refine ⟨cctx, receive,
      a1 ++ ((if receive.Status = ReceiveStatus.Success
                ∨ receive.Status = ReceiveStatus.Failed then
              [Call.RemoveOutTxTracker (outTxTrackerIndex msg)] else [])
          ++ [Call.CctxMigrateStatus
                (persistedCctx ctx (FinalizeReceive k ctx s cctx msg receive))
                cctx.CctxStatus.Status,
              Call.SetReceive (FinalizeReceive k ctx s cctx msg receive).receive]),
      hc, hv, fun _ => hfin, ?_, ?_, ?_⟩
    · rw [h]
      simp only [finalizedStore_calls, hcalls, hst, List.append_assoc]
    · rintro ⟨_, hs⟩
      rw [h]
      simp only [finalizedStore_trackers, hst, htr, if_pos hs]
      exact ⟨by simp [List.filter_append, hrem, isTrackerRemoval], trivial⟩
    · intro hnot
      have hs : ¬ (receive.Status = ReceiveStatus.Success
          ∨ receive.Status = ReceiveStatus.Failed) := fun hs => hnot ⟨hq, hs⟩
      rw [h]
      simp only [finalizedStore_trackers, hst, htr, if_neg hs]
      exact ⟨by simp [List.filter_append, hrem, isTrackerRemoval], trivial⟩

/-- A TSS nonce below 2^63 is rendered in the tracker key as it is. -/
theorem outTxTrackerIndex_of_lt (msg : MsgVoteOnObservedOutboundTx)
    (h : msg.OutTxTssNonce < 2 ^ 63) :
    outTxTrackerIndex msg = msg.OutTxChain ++ "-" ++ toString msg.OutTxTssNonce := by
  have hmod : msg.OutTxTssNonce % 2 ^ 64 = msg.OutTxTssNonce :=
    Nat.mod_eq_of_lt (by omega)
  unfold outTxTrackerIndex toInt
  rw [hmod, if_pos h]
  rfl

/-- C12: for an accepted vote the outbound tracker is removed exactly when quorum
is reached (finalization then having returned no error) and the status of the
Receive is Success or Failed; the removal is recorded once, under the key made
of the outbound chain of the vote, a hyphen, and the decimal rendering of its
TSS nonce read as a signed 64-bit integer (the nonce itself below 2^63), and
otherwise no removal is recorded and the trackers are as before. -/
theorem C12_tracker_removal (k : Keeper) (ctx : Context) (s : Store)
    (msg : MsgVoteOnObservedOutboundTx)
    (hok : (VoteOnObservedOutboundTx k ctx s msg).outcome = Outcome.ok) :
    ∃ cctx receive added,
      GetCctxByIndexAndStatuses s msg.CctxHash
          [CctxStatus.PendingOutbound, CctxStatus.PendingRevert] = some cctx
        ∧ countVote k s msg (k.Digest msg) = Except.ok receive
        ∧ (k.hasSuperMajorityValidators receive.Signers = true
            → (FinalizeReceive k ctx s cctx msg receive).outcome = Outcome.ok)
        ∧ (VoteOnObservedOutboundTx k ctx s msg).store.calls = s.calls ++ added
        ∧ ((k.hasSuperMajorityValidators receive.Signers = true
              ∧ (receive.Status = ReceiveStatus.Success
                ∨ receive.Status = ReceiveStatus.Failed))
            → added.filter isTrackerRemoval
                = [Call.RemoveOutTxTracker
                  (msg.OutTxChain ++ "-"
                    ++ toString
                      (if msg.OutTxTssNonce % 2 ^ 64 < 2 ^ 63 then
                        ((msg.OutTxTssNonce % 2 ^ 64 : Nat) : Int)
                      else ((msg.OutTxTssNonce % 2 ^ 64 : Nat) : Int) - 2 ^ 64))]
              ∧ (VoteOnObservedOutboundTx k ctx s msg).store.outTxTrackers
                = (fun i =>
                  if i = (msg.OutTxChain ++ "-"
                    ++ toString
                      (if msg.OutTxTssNonce % 2 ^ 64 < 2 ^ 63 then
                        ((msg.OutTxTssNonce % 2 ^ 64 : Nat) : Int)
                      else ((msg.OutTxTssNonce % 2 ^ 64 : Nat) : Int) - 2 ^ 64))
                  then false else s.outTxTrackers i)
              ∧ (msg.OutTxTssNonce < 2 ^ 63
                → added.filter isTrackerRemoval
                  = [Call.RemoveOutTxTracker
                      (msg.OutTxChain ++ "-" ++ toString msg.OutTxTssNonce)]))
        ∧ (¬ (k.hasSuperMajorityValidators receive.Signers = true
              ∧ (receive.Status = ReceiveStatus.Success
                ∨ receive.Status = ReceiveStatus.Failed))
            → added.filter isTrackerRemoval = []
              ∧ (VoteOnObservedOutboundTx k ctx s msg).store.outTxTrackers
                = s.outTxTrackers) := by
  obtain ⟨cctx, receive, added, hc, hv, hfin, hcalls, hyes, hno⟩ :=
    vote_tracker_removal k ctx s msg hok
  refine ⟨cctx, receive, added, hc, hv, hfin, hcalls, ?_, hno⟩
  intro hcond
  obtain ⟨hlist, htrack⟩ := hyes hcond
  refine ⟨hlist, htrack, ?_⟩
  intro hlt
  rw [hlist, outTxTrackerIndex_of_lt msg hlt]

/-- C12 at a concrete input: the Failed vote of `val2`, on chain GOERLI with TSS
nonce 4, completes quorum and the tracker `GOERLI-4`, present before, is
removed, once. -/
theorem C12_tracker_removal_witness :
    (sampleStore (sampleCctx CctxStatus.PendingOutbound)
        (some (sampleReceive ["val1"] ReceiveStatus.Failed 0))).outTxTrackers "GOERLI-4" = true
      ∧ (VoteOnObservedOutboundTx sampleKeeper sampleCtx
          (sampleStore (sampleCctx CctxStatus.PendingOutbound)
            (some (sampleReceive ["val1"] ReceiveStatus.Failed 0)))
          (sampleMsg "val2" ReceiveStatus.Failed 0)).store.calls.filter isTrackerRemoval
        = [Call.RemoveOutTxTracker "GOERLI-4"]
      ∧ (VoteOnObservedOutboundTx sampleKeeper sampleCtx
          (sampleStore (sampleCctx CctxStatus.PendingOutbound)
            (some (sampleReceive ["val1"] ReceiveStatus.Failed 0)))
          (sampleMsg "val2" ReceiveStatus.Failed 0)).store.outTxTrackers "GOERLI-4"
        = false := by
  obtain ⟨cctx, receive, added, _, hv, _, hcalls, hyes, _⟩ :=
    C12_tracker_removal sampleKeeper sampleCtx
      (sampleStore (sampleCctx CctxStatus.PendingOutbound)
        (some (sampleReceive ["val1"] ReceiveStatus.Failed 0)))
      (sampleMsg "val2" ReceiveStatus.Failed 0) (by decide)
  have hcount : countVote sampleKeeper
      (sampleStore (sampleCctx CctxStatus.PendingOutbound)
        (some (sampleReceive ["val1"] ReceiveStatus.Failed 0)))
      (sampleMsg "val2" ReceiveStatus.Failed 0)
      (sampleKeeper.Digest (sampleMsg "val2" ReceiveStatus.Failed 0))
      = Except.ok (sampleReceive ["val1", "val2"] ReceiveStatus.Failed 0) := rfl
  rw [hcount] at hv
  cases hv
  obtain ⟨_, htrack, hlist⟩ := hyes ⟨by decide, Or.inr rfl⟩
  have hl := hlist (by decide)
  have hkey : (sampleMsg "val2" ReceiveStatus.Failed 0).OutTxChain ++ "-"
      ++ toString (sampleMsg "val2" ReceiveStatus.Failed 0).OutTxTssNonce = "GOERLI-4" := by
    decide
  rw [hkey] at hl
  refine ⟨by decide, ?_, ?_⟩
  · rw [hcalls]
    simpa [sampleStore] using hl
  · rw [htrack]
    decide

/-! ### Price and nonce allocation -/

/-- C13 as stated fails: a Failed Receive finalizes a PendingOutbound CCTX, the
gas-price update returns an error, and `FinalizeReceive` returns it without
calling the nonce allocation: the only allocation call is `UpdatePrices`. -/
theorem C13_prices_error_skips_nonce :
    (sampleReceive ["val1", "val2"] ReceiveStatus.Failed 0).Status = ReceiveStatus.Failed
      ∧ (sampleCctx CctxStatus.PendingOutbound).CctxStatus.Status = CctxStatus.PendingOutbound
      ∧ (FinalizeReceive pricesFailingKeeper sampleCtx emptyStore
          (sampleCctx CctxStatus.PendingOutbound) (sampleMsg "val2" ReceiveStatus.Failed 0)
          (sampleReceive ["val1", "val2"] ReceiveStatus.Failed 0)).outcome
        = Outcome.error (Err.UpdatePricesFailed "no gas price")
      ∧ (FinalizeReceive pricesFailingKeeper sampleCtx emptyStore
          (sampleCctx CctxStatus.PendingOutbound) (sampleMsg "val2" ReceiveStatus.Failed 0)
          (sampleReceive ["val1", "val2"] ReceiveStatus.Failed 0)).store.calls
        = [Call.UpdatePrices "BSC"
            (recordHeights sampleCtx (sampleMsg "val2" ReceiveStatus.Failed 0)
              (sampleCctx CctxStatus.PendingOutbound))] := by
  decide

/-- C13, amended: `FinalizeReceive` calls the gas-price update, on the inbound
sender chain of the CCTX, if and only if the Receive is Failed and the old
status of the CCTX is PendingOutbound, and it calls the nonce allocation, on
the same chain and after the price update, if and only if moreover the price
update returned no error; every other finalization (PendingRevert with
Failed, and the Success ones) records no price or nonce call. -/
theorem C13_allocation_calls (k : Keeper) (ctx : Context) (s : Store)
    (cctx : CrossChainTx) (msg : MsgVoteOnObservedOutboundTx) (receive : Receive) :
    ∃ added, (FinalizeReceive k ctx s cctx msg receive).store.calls = s.calls ++ added
      ∧ added.filter isAllocationCall
        = if receive.Status = ReceiveStatus.Failed
              ∧ cctx.CctxStatus.Status = CctxStatus.PendingOutbound then
            Call.UpdatePrices cctx.InBoundTxParams.SenderChain (recordHeights ctx msg cctx)
              :: (if (k.UpdatePrices cctx.InBoundTxParams.SenderChain
                      (recordHeights ctx msg cctx)).2 = none then
                    [Call.UpdateNonce cctx.InBoundTxParams.SenderChain
                      (k.UpdatePrices cctx.InBoundTxParams.SenderChain
                        (recordHeights ctx msg cctx)).1]
                  else [])
          else [] := by
  simp only [FinalizeReceive, HandleFeeBalances, recordHeights]
  repeat' split
  all_goals
    simp only [Store.record, List.append_assoc]
    first
      | exact ⟨[], (List.append_nil _).symm, by simp_all [isAllocationCall]⟩
      | exact ⟨_, rfl, by simp_all [isAllocationCall]⟩

/-! ### The Receive an accepted vote stores -/

/-- A counted vote either appends the creator to the Signers of the stored
Receive, or creates the Receive of a first vote. -/
theorem countVote_ok (k : Keeper) (s : Store) (msg : MsgVoteOnObservedOutboundTx)
    (index : String) (receive : Receive)
    (hv : countVote k s msg index = Except.ok receive) :
    (∃ stored, s.receives index = some stored
        ∧ receive = { stored with Signers := stored.Signers ++ [msg.Creator] })
      ∨ (s.receives index = none ∧ receive = newReceive msg index) := by
  unfold countVote GetReceive at hv
  split at hv
  · rename_i stored hstored
    split at hv
    · cases hv
    · cases hv
      exact Or.inl ⟨stored, hstored, rfl⟩
  · rename_i hnone
    split at hv
    · cases hv
    · cases hv
      exact Or.inr ⟨hnone, rfl⟩

/-- The Receive written by an accepted vote: the counted Receive, with the
finalized height set when quorum was reached, stored under its index. -/
theorem vote_stores_receive (k : Keeper) (ctx : Context) (s : Store)
    (msg : MsgVoteOnObservedOutboundTx)
    (hok : (VoteOnObservedOutboundTx k ctx s msg).outcome = Outcome.ok) :
    ∃ receive, countVote k s msg (k.Digest msg) = Except.ok receive
      ∧ ((VoteOnObservedOutboundTx k ctx s msg).store.receives receive.Index = some receive
        ∨ (VoteOnObservedOutboundTx k ctx s msg).store.receives receive.Index
            = some { receive with FinalizedZetaHeight := toUint64 ctx.BlockHeight }) := by
  rcases vote_cases k ctx s msg with
    ⟨_, _, _, hne⟩ | ⟨cctx, receive, _, hv, ⟨_, h⟩ | ⟨_, _, h⟩⟩
  · exact absurd hok hne
  · refine ⟨receive, hv, Or.inl ?_⟩
    rw [h]
    simp [SetReceive]
  · refine ⟨receive, hv, Or.inr ?_⟩
    rw [h]
    simp [finalizedStore_receives, FinalizeReceive_receive]

/-- C14: after an accepted vote, with or without quorum, the Receive stored
under the digest of the vote has the previously stored Signers with the
voter appended at the end, or the one voter when no Receive existed; a newly
created Receive has the digest as Index, the CCTX index as SendHash, and the
OutTxHash, OutBlockHeight, Status and Chain of the vote. (A Receive already
stored under the digest is taken to carry that digest as its Index.) -/
theorem C14_accepted_vote_stores_receive (k : Keeper) (ctx : Context) (s : Store)
    (msg : MsgVoteOnObservedOutboundTx)
    (hkey : ∀ r, s.receives (k.Digest msg) = some r → r.Index = k.Digest msg)
    (hok : (VoteOnObservedOutboundTx k ctx s msg).outcome = Outcome.ok) :
    ∃ stored, (VoteOnObservedOutboundTx k ctx s msg).store.receives (k.Digest msg)
        = some stored
      ∧ (∀ r, s.receives (k.Digest msg) = some r
          → stored.Signers = r.Signers ++ [msg.Creator])
      ∧ (s.receives (k.Digest msg) = none
          → stored.Signers = [msg.Creator]
            ∧ stored.Index = k.Digest msg
            ∧ stored.SendHash = msg.CctxHash
            ∧ stored.OutTxHash = msg.ObservedOutTxHash
            ∧ stored.OutBlockHeight = msg.ObservedOutTxBlockHeight
            ∧ stored.Status = msg.Status
            ∧ stored.Chain = msg.OutTxChain) := by
  obtain ⟨receive, hv, hstore⟩ := vote_stores_receive k ctx s msg hok
  have hidx : receive.Index = k.Digest msg := by
    rcases countVote_ok k s msg _ receive hv with ⟨r, hr, heq⟩ | ⟨_, heq⟩
    · rw [heq]; exact hkey r hr
    · rw [heq]; rfl
  rw [hidx] at hstore
  rcases countVote_ok k s msg _ receive hv with ⟨r, hr, heq⟩ | ⟨hnone, heq⟩
  · rcases hstore with h | h
    · refine ⟨_, h, ?_, ?_⟩
      · intro r2 hr2
        rw [hr] at hr2; cases hr2
        rw [heq]
      · intro hnone; rw [hnone] at hr; cases hr
    · refine ⟨_, h, ?_, ?_⟩
      · intro r2 hr2
        rw [hr] at hr2; cases hr2
        rw [heq]
      · intro hnone; rw [hnone] at hr; cases hr
  · rcases hstore with h | h
    · refine ⟨_, h, ?_, ?_⟩
      · intro r2 hr2; rw [hnone] at hr2; cases hr2
      · intro _; rw [heq]; simp [newReceive]
    · refine ⟨_, h, ?_, ?_⟩
      · intro r2 hr2; rw [hnone] at hr2; cases hr2
      · intro _; rw [heq]; simp [newReceive]

/-- C14 at a concrete input: `val2` votes after `val1`; the stored Signers
become `val1`, `val2`. -/
theorem C14_accepted_vote_stores_receive_witness :
    ∃ stored,
      (VoteOnObservedOutboundTx sampleKeeper sampleCtx
          (sampleStore (sampleCctx CctxStatus.PendingOutbound)
            (some (sampleReceive ["val1"] ReceiveStatus.Success 0)))
          (sampleMsg "val2" ReceiveStatus.Success 7)).store.receives "cctx1/0xabc"
        = some stored
      ∧ stored.Signers = ["val1", "val2"] :=
  have h := C14_accepted_vote_stores_receive sampleKeeper sampleCtx
    (sampleStore (sampleCctx CctxStatus.PendingOutbound)
      (some (sampleReceive ["val1"] ReceiveStatus.Success 0)))
    (sampleMsg "val2" ReceiveStatus.Success 7)
    (by
      intro r hr
      have hr2 : some (sampleReceive ["val1"] ReceiveStatus.Success 0) = some r := hr
      cases hr2
      rfl)
    (by decide)
  h.elim fun stored hs =>
    ⟨stored, hs.1, hs.2.1 (sampleReceive ["val1"] ReceiveStatus.Success 0) rfl⟩

/-! ### Status on a failed finalization, heights on a successful one -/

/-- C19, evaluated on the code: in the Success branch the status is changed
before the mint is requested, so when the bank refuses to mint
`FinalizeReceive` returns the error with the status of the CCTX passed in
already moved (PendingOutbound to OutboundMined, PendingRevert to Reverted);
the Failed branch changes the status only after its fallible calls, and a
failed price update leaves PendingOutbound in place. -/
theorem C19_failed_mint_status_already_changed :
    (FinalizeReceive mintFailingKeeper sampleCtx emptyStore
        (sampleCctx CctxStatus.PendingOutbound) (sampleMsg "val2" ReceiveStatus.Success 7)
        (sampleReceive ["val1", "val2"] ReceiveStatus.Success 0)).outcome
      = Outcome.error (Err.FailedToMintCoins "bank unavailable")
    ∧ (FinalizeReceive mintFailingKeeper sampleCtx emptyStore
        (sampleCctx CctxStatus.PendingOutbound) (sampleMsg "val2" ReceiveStatus.Success 7)
        (sampleReceive ["val1", "val2"] ReceiveStatus.Success 0)).cctx.CctxStatus.Status
      = CctxStatus.OutboundMined
    ∧ (FinalizeReceive mintFailingKeeper sampleCtx emptyStore
        (sampleCctx CctxStatus.PendingRevert) (sampleMsg "val2" ReceiveStatus.Success 7)
        (sampleReceive ["val1", "val2"] ReceiveStatus.Success 0)).outcome
      = Outcome.error (Err.FailedToMintCoins "bank unavailable")
    ∧ (FinalizeReceive mintFailingKeeper sampleCtx emptyStore
        (sampleCctx CctxStatus.PendingRevert) (sampleMsg "val2" ReceiveStatus.Success 7)
        (sampleReceive ["val1", "val2"] ReceiveStatus.Success 0)).cctx.CctxStatus.Status
      = CctxStatus.Reverted
    ∧ (FinalizeReceive pricesFailingKeeper sampleCtx emptyStore
        (sampleCctx CctxStatus.PendingOutbound) (sampleMsg "val2" ReceiveStatus.Failed 0)
        (sampleReceive ["val1", "val2"] ReceiveStatus.Failed 0)).outcome
      = Outcome.error (Err.UpdatePricesFailed "no gas price")
    ∧ (FinalizeReceive pricesFailingKeeper sampleCtx emptyStore
        (sampleCctx CctxStatus.PendingOutbound) (sampleMsg "val2" ReceiveStatus.Failed 0)
        (sampleReceive ["val1", "val2"] ReceiveStatus.Failed 0)).cctx.CctxStatus.Status
      = CctxStatus.PendingOutbound := by
  decide

/-- The conversion `uint64(h)` keeps a block height that is not negative. -/
theorem toUint64_of_nonneg (h : Int) (h0 : 0 ≤ h) (h1 : h < 2 ^ 63) :
    (toUint64 h : Int) = h := by
  unfold toUint64
  have hlt : h < 2 ^ 64 := by omega
  rw [Int.emod_eq_of_lt h0 hlt]
  exact Int.toNat_of_nonneg h0

/-- When the allocators keep the heights, the CCTX leaves `FinalizeReceive` with
the finalized height and the observed external height recorded on entry. -/
theorem FinalizeReceive_heights (k : Keeper) (ctx : Context) (s : Store)
    (cctx : CrossChainTx) (msg : MsgVoteOnObservedOutboundTx) (receive : Receive)
    (hk : KeepsHeights k) :
    (FinalizeReceive k ctx s cctx msg receive).cctx.OutBoundTxParams.OutBoundTxFinalizedZetaHeight
        = toUint64 ctx.BlockHeight
      ∧ (FinalizeReceive k ctx s cctx msg
          receive).cctx.OutBoundTxParams.OutBoundTxObservedExternalHeight
        = msg.ObservedOutTxBlockHeight := by
  simp only [FinalizeReceive]
  repeat' split
  all_goals
    simp [cctxChangeStatus, (hk _ _).1, (hk _ _).2.1, (hk _ _).2.2.1, (hk _ _).2.2.2]

/-- C20: for a counted vote at a block height h that is not negative, with
allocators that keep the heights: when quorum is reached and finalization
returns no error, the stored Receive has FinalizedZetaHeight h, and the CCTX
persisted under its index has OutBoundTxFinalizedZetaHeight h,
OutBoundTxObservedExternalHeight equal to the ObservedOutTxBlockHeight of the
vote, OutBoundTXReceiveIndex and OutBoundTxHash equal to the Index and
OutTxHash of the Receive, and LastUpdateTimestamp equal to the block time;
when quorum is not reached the stored CCTXs are unchanged and the stored
Receive keeps the FinalizedZetaHeight it had (0 for a new Receive). -/
theorem C20_heights_recorded (k : Keeper) (ctx : Context) (s : Store)
    (msg : MsgVoteOnObservedOutboundTx) (cctx : CrossChainTx) (receive : Receive)
    (hk : KeepsHeights k) (h0 : 0 ≤ ctx.BlockHeight) (h1 : ctx.BlockHeight < 2 ^ 63)
    (ha : k.isAuthorized msg.Creator = true)
    (hc : GetCctxByIndexAndStatuses s msg.CctxHash
      [CctxStatus.PendingOutbound, CctxStatus.PendingRevert] = some cctx)
    (hm : msg.Status = ReceiveStatus.Failed ∨ msg.ZetaMinted = some cctx.ZetaMint)
    (hv : countVote k s msg (k.Digest msg) = Except.ok receive) :
    (k.hasSuperMajorityValidators receive.Signers = true
        → (FinalizeReceive k ctx s cctx msg receive).outcome = Outcome.ok
        → ∃ storedReceive storedCctx,
            (VoteOnObservedOutboundTx k ctx s msg).store.receives receive.Index
                = some storedReceive
              ∧ (VoteOnObservedOutboundTx k ctx s msg).store.cctxs
                  (FinalizeReceive k ctx s cctx msg receive).cctx.Index = some storedCctx
              ∧ (storedReceive.FinalizedZetaHeight : Int) = ctx.BlockHeight
              ∧ (storedCctx.OutBoundTxParams.OutBoundTxFinalizedZetaHeight : Int)
                  = ctx.BlockHeight
              ∧ storedCctx.OutBoundTxParams.OutBoundTxObservedExternalHeight
                  = msg.ObservedOutTxBlockHeight
              ∧ storedCctx.OutBoundTxParams.OutBoundTXReceiveIndex = storedReceive.Index
              ∧ storedCctx.OutBoundTxParams.OutBoundTxHash = storedReceive.OutTxHash
              ∧ storedCctx.CctxStatus.LastUpdateTimestamp = ctx.BlockTime)
      ∧ (k.hasSuperMajorityValidators receive.Signers = false
        → (VoteOnObservedOutboundTx k ctx s msg).store.cctxs = s.cctxs
          ∧ (VoteOnObservedOutboundTx k ctx s msg).store.receives receive.Index
              = some receive
          ∧ (∀ r, s.receives (k.Digest msg) = some r
              → receive.FinalizedZetaHeight = r.FinalizedZetaHeight)
          ∧ (s.receives (k.Digest msg) = none → receive.FinalizedZetaHeight = 0)) := by
  constructor
  · intro hq hfin
    have hvq := vote_quorum k ctx s msg cctx receive ha hc hm hv hq
    rw [hfin] at hvq
    have hh := FinalizeReceive_heights k ctx s cctx msg receive hk
    refine ⟨(FinalizeReceive k ctx s cctx msg receive).receive,
      persistedCctx ctx (FinalizeReceive k ctx s cctx msg receive), ?_, ?_, ?_, ?_, ?_, ?_, ?_, ?_⟩
    · rw [hvq]
      simp [finalizedStore_receives, FinalizeReceive_receive]
    · rw [hvq]
      simp [finalizedStore_cctxs]
    · rw [FinalizeReceive_receive]
      exact toUint64_of_nonneg _ h0 h1
    · simp only [persistedCctx, hh.1]
      exact toUint64_of_nonneg _ h0 h1
    · simp only [persistedCctx, hh.2]
    · rfl
    · rfl
    · rfl
  · intro hq
    rw [vote_no_quorum k ctx s msg cctx receive ha hc hm hv hq]
    refine ⟨rfl, by simp [SetReceive], ?_, ?_⟩
    · intro r hr
      rcases countVote_ok k s msg _ receive hv with ⟨r2, hr2, heq⟩ | ⟨hnone, _⟩
      · rw [hr] at hr2; cases hr2
        rw [heq]
      · rw [hnone] at hr; cases hr
    · intro hnone
      rcases countVote_ok k s msg _ receive hv with ⟨r2, hr2, _⟩ | ⟨_, heq⟩
      · rw [hnone] at hr2; cases hr2
      · rw [heq]; rfl

/-- C20 at a concrete input: the Success vote of `val2` completes quorum at
height 100 and block time 1700000000. -/
theorem C20_heights_recorded_witness :
    ∃ storedReceive storedCctx,
      (VoteOnObservedOutboundTx sampleKeeper sampleCtx
          (sampleStore (sampleCctx CctxStatus.PendingOutbound)
            (some (sampleReceive ["val1"] ReceiveStatus.Success 0)))
          (sampleMsg "val2" ReceiveStatus.Success 7)).store.receives "cctx1/0xabc"
        = some storedReceive
      ∧ (VoteOnObservedOutboundTx sampleKeeper sampleCtx
          (sampleStore (sampleCctx CctxStatus.PendingOutbound)
            (some (sampleReceive ["val1"] ReceiveStatus.Success 0)))
          (sampleMsg "val2" ReceiveStatus.Success 7)).store.cctxs "cctx1"
        = some storedCctx
      ∧ (storedReceive.FinalizedZetaHeight : Int) = 100
      ∧ (storedCctx.OutBoundTxParams.OutBoundTxFinalizedZetaHeight : Int) = 100
      ∧ storedCctx.OutBoundTxParams.OutBoundTxObservedExternalHeight = 55
      ∧ storedCctx.OutBoundTxParams.OutBoundTXReceiveIndex = storedReceive.Index
      ∧ storedCctx.OutBoundTxParams.OutBoundTxHash = storedReceive.OutTxHash
      ∧ storedCctx.CctxStatus.LastUpdateTimestamp = 1700000000 :=
  (C20_heights_recorded sampleKeeper sampleCtx
    (sampleStore (sampleCctx CctxStatus.PendingOutbound)
      (some (sampleReceive ["val1"] ReceiveStatus.Success 0)))
    (sampleMsg "val2" ReceiveStatus.Success 7) (sampleCctx CctxStatus.PendingOutbound)
    (sampleReceive ["val1", "val2"] ReceiveStatus.Success 0)
    (fun _ _ => ⟨rfl, rfl, rfl, rfl⟩) (by decide) (by decide)
    (by decide) (by decide) (by decide) rfl).1 (by decide) (by decide)

/-! ### The hardware signer -/

/-- The error of `GetPKCS11Config` is the configuration error, raised exactly
when one of the three values read from the environment is empty. -/
theorem GetPKCS11Config_err (w : Hsm.World) :
    (Hsm.GetPKCS11Config w).2
      = if Hsm.Getenv w "HSM_PATH" = "" ∨ Hsm.Getenv w "HSM_PIN" = ""
            ∨ Hsm.Getenv w "HSM_LABEL" = "" then some Hsm.Err.ConfigError else none := by
  simp only [Hsm.GetPKCS11Config, Hsm.hsmPath, Hsm.hsmPIN, Hsm.hsmLabel]
  split <;> rfl

/-- The configuration `GetPKCS11Config` returns carries the three values read
from the environment. -/
theorem GetPKCS11Config_config (w : Hsm.World) :
    (Hsm.GetPKCS11Config w).1
      = { Path := Hsm.Getenv w "HSM_PATH", Pin := Hsm.Getenv w "HSM_PIN"
          TokenLabel := Hsm.Getenv w "HSM_LABEL" } := by
  simp only [Hsm.GetPKCS11Config, Hsm.hsmPath, Hsm.hsmPIN, Hsm.hsmLabel]
  split <;> rfl

/-- A variable reads as empty exactly when it is unset or set to the empty
string. -/
theorem Getenv_empty (w : Hsm.World) (key : String) :
    Hsm.Getenv w key = "" ↔ (w.env key = none ∨ w.env key = some "") := by
  unfold Hsm.Getenv
  cases h : w.env key <;> simp

/-- A variable that reads as a value that is not empty is set to that value. -/
theorem Getenv_nonempty (w : Hsm.World) (key : String) (h : Hsm.Getenv w key ≠ "") :
    w.env key = some (Hsm.Getenv w key) := by
  unfold Hsm.Getenv at h ⊢
  cases hk : w.env key with
  | none => rw [hk] at h; exact absurd rfl h
  | some v => rfl

/-- C15: `GetPKCS11Config` returns an error if and only if one of HSM_PATH,
HSM_PIN, HSM_LABEL is unset or empty, and otherwise returns the configuration
carrying the three values of the environment; when it returns an error,
`SignWithHSM` returns that error with no call to the hardware module made
and the transaction builder as it was. -/
theorem C15_config_error_before_hsm (w : Hsm.World) (txf : Hsm.Factory) (name : String)
    (txBuilder : Hsm.TxBuilder) (overwriteSig : Bool) (txConfig : Hsm.TxConfig) :
    ((Hsm.GetPKCS11Config w).2 ≠ none
        ↔ ((w.env "HSM_PATH" = none ∨ w.env "HSM_PATH" = some "")
          ∨ (w.env "HSM_PIN" = none ∨ w.env "HSM_PIN" = some "")
          ∨ (w.env "HSM_LABEL" = none ∨ w.env "HSM_LABEL" = some "")))
      ∧ ((Hsm.GetPKCS11Config w).2 = none
        → w.env "HSM_PATH" = some (Hsm.GetPKCS11Config w).1.Path
          ∧ w.env "HSM_PIN" = some (Hsm.GetPKCS11Config w).1.Pin
          ∧ w.env "HSM_LABEL" = some (Hsm.GetPKCS11Config w).1.TokenLabel)
      ∧ ∀ err, (Hsm.GetPKCS11Config w).2 = some err
        → Hsm.SignWithHSM w txf name txBuilder overwriteSig txConfig
            = { txBuilder := txBuilder, hsmCalls := [], err := some err } := by
  refine ⟨?_, ?_, ?_⟩
  · rw [GetPKCS11Config_err, ← Getenv_empty, ← Getenv_empty, ← Getenv_empty]
    split <;> simp_all
  · intro hnone
    rw [GetPKCS11Config_err] at hnone
    rw [GetPKCS11Config_config]
    split at hnone
    · cases hnone
    · rename_i hne
      simp only [not_or] at hne
      exact ⟨Getenv_nonempty w _ hne.1, Getenv_nonempty w _ hne.2.1,
        Getenv_nonempty w _ hne.2.2⟩
  · intro err herr
    simp only [Hsm.SignWithHSM, herr]

/-- C15 at a concrete input: without the PIN, `SignWithHSM` returns the
configuration error, makes no call to the hardware module and leaves the
builder as it was. -/
theorem C15_config_error_before_hsm_witness :
    Hsm.SignWithHSM Hsm.worldWithoutPin Hsm.sampleFactory "hsmkey" Hsm.twoSignerBuilder
        false Hsm.sampleTxConfig
      = { txBuilder := Hsm.twoSignerBuilder, hsmCalls := []
          err := some Hsm.Err.ConfigError } :=
  (C15_config_error_before_hsm Hsm.worldWithoutPin Hsm.sampleFactory "hsmkey"
    Hsm.twoSignerBuilder false Hsm.sampleTxConfig).2.2 Hsm.Err.ConfigError (by decide)

/-- C16, evaluated on the code: a transaction with two signers is signed in
DIRECT mode. `SignWithHSM` never reads the signers of the transaction: it
returns no error, asks the hardware module for a signature and installs it. -/
theorem C16_direct_mode_multiple_signers_signed :
    Hsm.twoSignerBuilder.tx.signers.length = 2
      ∧ Hsm.sampleFactory.SignMode = Hsm.SignMode.SIGN_MODE_DIRECT
      ∧ (Hsm.SignWithHSM Hsm.sampleWorld Hsm.sampleFactory "hsmkey" Hsm.twoSignerBuilder
          true Hsm.sampleTxConfig).err = none
      ∧ (Hsm.SignWithHSM Hsm.sampleWorld Hsm.sampleFactory "hsmkey" Hsm.twoSignerBuilder
          true Hsm.sampleTxConfig).hsmCalls
        = [Hsm.HsmCall.NewPkcs11
              { Path := "/usr/lib/libsofthsm2.so", Pin := "1234", TokenLabel := "zeta" },
            Hsm.HsmCall.Key "hsmkey",
            Hsm.HsmCall.NewPkcs11
              { Path := "/usr/lib/libsofthsm2.so", Pin := "1234", TokenLabel := "zeta" },
            Hsm.HsmCall.Key "hsmkey",
            Hsm.HsmCall.Sign [10, 20, 30, 3, 9, 1]]
      ∧ (Hsm.SignWithHSM Hsm.sampleWorld Hsm.sampleFactory "hsmkey" Hsm.twoSignerBuilder
          true Hsm.sampleTxConfig).txBuilder.tx.signatures
        = [Hsm.mkSignature [2, 171, 205] Hsm.SignMode.SIGN_MODE_DIRECT
            [1, 9, 3, 30, 20, 10, 2, 171, 205] 9]
      ∧ (Hsm.SignWithHSM Hsm.sampleWorld Hsm.sampleFactory "hsmkey" Hsm.twoSignerBuilder
          false Hsm.sampleTxConfig).err = none
      ∧ (Hsm.SignWithHSM Hsm.sampleWorld Hsm.sampleFactory "hsmkey" Hsm.twoSignerBuilder
          false Hsm.sampleTxConfig).txBuilder.tx.signatures
        = [Hsm.mkSignature [3, 1] Hsm.SignMode.SIGN_MODE_DIRECT [7, 7] 4,
            Hsm.mkSignature [2, 171, 205] Hsm.SignMode.SIGN_MODE_DIRECT
              [2, 9, 3, 30, 20, 10, 2, 171, 205] 9] := by
  decide

/-- A successful `SetSignatures` replaces the signatures and nothing else. -/
theorem SetSignatures_ok (b b1 : Hsm.TxBuilder) (sigs : List Hsm.SignatureV2)
    (h : Hsm.SetSignatures b sigs = Except.ok b1) :
    b1 = { b with tx := { b.tx with signatures := sigs } } := by
  unfold Hsm.SetSignatures at h
  split at h
  · cases h
  · cases h; rfl

/-- A successful `GetSignaturesV2` returns the signatures of the transaction. -/
theorem GetSignaturesV2_ok (b : Hsm.TxBuilder) (sigs : List Hsm.SignatureV2)
    (h : Hsm.GetSignaturesV2 b = Except.ok sigs) : sigs = b.tx.signatures := by
  unfold Hsm.GetSignaturesV2 at h
  split at h
  · cases h
  · cases h; rfl

/-- A successful `GetHSMAddress` found the key under the label. -/
theorem GetHSMAddress_ok (w : Hsm.World) (calls : List Hsm.HsmCall) (config : Hsm.Config)
    (label : String) (key : Hsm.CryptoKey)
    (h : (Hsm.GetHSMAddress w calls config label).2 = Except.ok key) :
    ∃ keyring, w.NewPkcs11 config = Except.ok keyring ∧ keyring.Key label = Except.ok key := by
  unfold Hsm.GetHSMAddress at h
  split at h
  · cases h
  · rename_i keyring hring
    refine ⟨keyring, hring, ?_⟩
    simp only at h
    split at h
    · cases h
    · cases h; assumption

/-- A successful `Sign` returns what the key found under the label signed. -/
theorem Sign_ok (w : Hsm.World) (calls : List Hsm.HsmCall) (config : Hsm.Config)
    (msg : Hsm.Bytes) (label : String) (signature : Hsm.Bytes)
    (h : (Hsm.Sign w calls config msg label).2 = Except.ok signature) :
    ∃ keyring key, w.NewPkcs11 config = Except.ok keyring
      ∧ keyring.Key label = Except.ok key ∧ key.Sign msg = Except.ok signature := by
  unfold Hsm.Sign at h
  split at h
  · cases h
  · rename_i keyring hring
    split at h
    · cases h
    · rename_i key hkey
      refine ⟨keyring, key, hring, hkey, ?_⟩
      simp only at h
      split at h
      · cases h
      · cases h; assumption

/-- C17: after a call of `SignWithHSM` that returns no error, the signatures of
the transaction builder are exactly the one new entry when `overwriteSig` is
true, and exactly the signatures present before the call followed by the new
entry when it is false; the new entry has as public key the public key of the
key found under `name`, as sequence and sign mode those of the factory, and
as signature the bytes the key returned for the sign bytes; the sign bytes
were computed on the transaction holding, in the place of the new entry, the
placeholder with the empty signature, and the final list holds one entry
more than the signatures it keeps, so the placeholder is not in it. -/
theorem C17_final_signatures (w : Hsm.World) (txf : Hsm.Factory) (name : String)
    (txBuilder : Hsm.TxBuilder) (overwriteSig : Bool) (txConfig : Hsm.TxConfig)
    (hok : (Hsm.SignWithHSM w txf name txBuilder overwriteSig txConfig).err = none) :
    ∃ keyring key bytesToSign sigBytes,
      w.NewPkcs11 (Hsm.GetPKCS11Config w).1 = Except.ok keyring
        ∧ keyring.Key name = Except.ok key
        ∧ txConfig.GetSignBytes txf.SignMode
            { ChainID := txf.ChainID, AccountNumber := txf.AccountNumber
              Sequence := txf.Sequence, PubKey := key.PubKey
              Address := w.AccAddressString key.Address }
            { body := txBuilder.tx.body
              signers := txBuilder.tx.signers
              signatures :=
                (if overwriteSig then [] else txBuilder.tx.signatures)
                  ++ [{ PubKey := key.PubKey
                        Data := { SignMode := txf.SignMode, Signature := [] }
                        Sequence := txf.Sequence }] }
          = Except.ok bytesToSign
        ∧ key.Sign bytesToSign = Except.ok sigBytes
        ∧ (Hsm.SignWithHSM w txf name txBuilder overwriteSig
              txConfig).txBuilder.tx.signatures
          = (if overwriteSig then [] else txBuilder.tx.signatures)
              ++ [{ PubKey := key.PubKey
                    Data := { SignMode := txf.SignMode, Signature := sigBytes }
                    Sequence := txf.Sequence }]
        ∧ (Hsm.SignWithHSM w txf name txBuilder overwriteSig
              txConfig).txBuilder.tx.signatures.length
          = (if overwriteSig then 0 else txBuilder.tx.signatures.length) + 1
        ∧ (Hsm.SignWithHSM w txf name txBuilder overwriteSig txConfig).txBuilder.tx.body
          = txBuilder.tx.body := by
  revert hok
  cases overwriteSig
  · simp only [Hsm.SignWithHSM, Hsm.GetTx, Bool.not_false, Bool.not_true, if_true,
      Bool.false_eq_true, if_false]
    repeat' split
    all_goals intro hok
    all_goals try (cases hok; done)
    rename_i _ _ _ key hfound _ prev hprev _ b1 hset1 _ bytes hbytes _ sigBytes hsigned _ b2 hset2
    obtain ⟨keyring, hring, hkey⟩ := GetHSMAddress_ok _ _ _ _ _ hfound
    obtain ⟨keyring2, key2, hring2, hkey2, hsign⟩ := Sign_ok _ _ _ _ _ _ hsigned
    rw [hring] at hring2
    cases hring2
    rw [hkey] at hkey2
    cases hkey2
    have hb1 := SetSignatures_ok _ _ _ hset1
    have hb2 := SetSignatures_ok _ _ _ hset2
    have hp := GetSignaturesV2_ok _ _ hprev
    subst hp
    subst hb1
    subst hb2
    exact ⟨keyring, key, bytes, sigBytes, hring, hkey, hbytes, hsign, rfl,
      by simp [Hsm.mkSignature], rfl⟩
  · simp only [Hsm.SignWithHSM, Hsm.GetTx, Bool.not_false, Bool.not_true, if_true,
      Bool.false_eq_true, if_false]
    repeat' split
    all_goals intro hok
    all_goals try (cases hok; done)
    rename_i _ _ _ key hfound _ b1 hset1 _ bytes hbytes _ sigBytes hsigned _ b2 hset2
    obtain ⟨keyring, hring, hkey⟩ := GetHSMAddress_ok _ _ _ _ _ hfound
    obtain ⟨keyring2, key2, hring2, hkey2, hsign⟩ := Sign_ok _ _ _ _ _ _ hsigned
    rw [hring] at hring2
    cases hring2
    rw [hkey] at hkey2
    cases hkey2
    have hb1 := SetSignatures_ok _ _ _ hset1
    have hb2 := SetSignatures_ok _ _ _ hset2
    subst hb1
    subst hb2
    exact ⟨keyring, key, bytes, sigBytes, hring, hkey, hbytes, hsign, rfl,
      by simp [Hsm.mkSignature], rfl⟩

/-- C17 at a concrete input: with the key `hsmkey` (public key 2, 171, 205),
a factory in DIRECT mode at sequence 9 and a builder holding one signature,
appending gives that signature followed by the new one, whose bytes are what
the key returned for the sign bytes 10, 20, 30, 3, 9, 2. -/
theorem C17_final_signatures_witness :
    (Hsm.SignWithHSM Hsm.sampleWorld Hsm.sampleFactory "hsmkey" Hsm.twoSignerBuilder
        false Hsm.sampleTxConfig).txBuilder.tx.signatures
      = [{ PubKey := [3, 1]
           Data := { SignMode := Hsm.SignMode.SIGN_MODE_DIRECT, Signature := [7, 7] }
           Sequence := 4 },
         { PubKey := [2, 171, 205]
           Data := { SignMode := Hsm.SignMode.SIGN_MODE_DIRECT
                     Signature := [2, 9, 3, 30, 20, 10, 2, 171, 205] }
           Sequence := 9 }] := by
  obtain ⟨keyring, key, bytes, sigBytes, hring, hkey, hbytes, hsign, hfinal, _, _⟩ :=
    C17_final_signatures Hsm.sampleWorld Hsm.sampleFactory "hsmkey" Hsm.twoSignerBuilder
      false Hsm.sampleTxConfig (by decide)
  have hring2 : (Except.ok
      { Key := fun label =>
          if label = "hsmkey" then Except.ok Hsm.sampleKey
          else Except.error "key not found" } : Except String Hsm.Keyring)
      = Except.ok keyring := hring
  cases hring2
  have hkey2 : (Except.ok Hsm.sampleKey : Except String Hsm.CryptoKey) = Except.ok key := hkey
  cases hkey2
  have hbytes2 : (Except.ok [10, 20, 30, 3, 9, 2] : Except String Hsm.Bytes)
      = Except.ok bytes := hbytes
  cases hbytes2
  have hsign2 : (Except.ok [2, 9, 3, 30, 20, 10, 2, 171, 205] : Except String Hsm.Bytes)
      = Except.ok sigBytes := hsign
  cases hsign2
  rw [hfinal]
  rfl

/-! ### Outbound-transaction signing -/

/-- C18: whenever `Signer.Sign` returns a transaction, a signature and a hash
without error, recovering the public key from the hash and the signature
succeeds and yields the `Pubkey()` of the signer; the hash is the signing
digest of the envelope and the signature is what the signer returned for it. -/
theorem C18_sign_round_trip (crypto : Metaclient.Crypto) (signer : Metaclient.Signer)
    (payload fromAddress : Metaclient.Bytes) (nonce gasPrice gasLimit : Nat)
    (tx : Metaclient.Transaction) (sig hash : Metaclient.Bytes)
    (h : Metaclient.Sign crypto signer payload fromAddress nonce gasPrice gasLimit
      = Except.ok (tx, sig, hash)) :
    crypto.Ecrecover hash sig = Except.ok signer.tssSigner.Pubkey
      ∧ signer.tssSigner.Sign hash = Except.ok sig
      ∧ tx.Signature = some sig := by
  unfold Metaclient.Sign at h
  simp only at h
  split at h
  · cases h
  · rename_i sig2 hsig
    split at h
    · cases h
    · rename_i recovered hrec
      split at h
      · rename_i heq
        cases h
        exact ⟨by rw [hrec, heq], hsig, rfl⟩
      · cases h

/-- C18 at the input of the test: payload `1234`, nonce 109, gas price 2, gas
limit 23. -/
theorem C18_sign_round_trip_witness :
    Metaclient.sampleCrypto.Ecrecover [49, 50, 51, 52, 109, 2, 23, 97]
        [49, 50, 51, 52, 109, 2, 23, 97, 4, 5, 6]
      = Except.ok Metaclient.sampleSigner.tssSigner.Pubkey :=
  (C18_sign_round_trip Metaclient.sampleCrypto Metaclient.sampleSigner [49, 50, 51, 52]
    [232, 11] 109 2 23
    { To := [160, 1], Value := 0, Data := [49, 50, 51, 52], Nonce := 109, GasPrice := 2
      GasLimit := 23, ChainID := 97
      Signature := some [49, 50, 51, 52, 109, 2, 23, 97, 4, 5, 6] }
    [49, 50, 51, 52, 109, 2, 23, 97, 4, 5, 6] [49, 50, 51, 52, 109, 2, 23, 97] rfl).1

end Zetacore
